import Mathlib

/-
Shallow embedding of the research-analysis and paper-trade feedback engine of
the stock-trader repository (src/research.ts and src/run-cycle.ts, provided as
src/unnamed/part_006).  JavaScript numbers are modelled as rationals (ℚ): every
value of the embedding is finite, so the source's Number.isFinite checks are
identically true and are noted in comments where they occur.  The ambient state
the source reads (Date.now(), Math.pow) is threaded through as explicit
parameters: `now` is the current wall-clock time in milliseconds, and `powHalf`
models the real-valued map x ↦ Math.pow(0.5, x).  Timestamps held as ISO strings
in the source (publishedAt, entryAt) are modelled as their parsed millisecond
values, with `none` standing for a missing or unparsable string.  The field
spelled m-a-c-r-o in the source is renamed (macroData / macroW / macroF) because
that spelling cannot be used as an identifier here.
-/

set_option maxRecDepth 2000

namespace StockTrader

/-- JavaScript marketTrend union "up" | "down" | "flat". -/
inductive MarketTrend where
  | up
  | down
  | flat
deriving DecidableEq, Repr

/-- MarketRegime from research.ts. -/
inductive MarketRegime where
  | risk_on
  | risk_off
  | high_vol
  | neutral
deriving DecidableEq, Repr

/-- Fundamentals record (research-data.ts); the unused `symbol` key is omitted. -/
structure Fundamentals where
  sector : Option String := none
  industry : Option String := none
  marketCap : Option ℚ := none
  pe : Option ℚ := none
  ps : Option ℚ := none
  evEbitda : Option ℚ := none
  revenueGrowth : Option ℚ := none
  epsGrowth : Option ℚ := none
  grossMargin : Option ℚ := none
  operatingMargin : Option ℚ := none
  netMargin : Option ℚ := none
  debtToEquity : Option ℚ := none
  roic : Option ℚ := none
  roe : Option ℚ := none
  fcfYield : Option ℚ := none
deriving DecidableEq, Repr

/-- Technicals record (research-data.ts); the unused `symbol` key is omitted. -/
structure Technicals where
  rsi : Option ℚ := none
  sma50 : Option ℚ := none
  sma200 : Option ℚ := none
  atrPct : Option ℚ := none
  beta : Option ℚ := none
  maxDrawdown : Option ℚ := none
  momentum1m : Option ℚ := none
  momentum3m : Option ℚ := none
  momentum6m : Option ℚ := none
  correlationWithMarket : Option ℚ := none
  correlationWithPortfolio : Option ℚ := none
deriving DecidableEq, Repr

/-- MacroData record (research-data.ts); unused updatedAt omitted. -/
structure MacroData where
  vix : Option ℚ := none
  yieldCurveSlope : Option ℚ := none
  inflation : Option ℚ := none
  unemployment : Option ℚ := none
  marketTrend : Option MarketTrend := none
  riskOnScore : Option ℚ := none
deriving DecidableEq, Repr

/-- NewsItem (research-data.ts).  publishedAt is the parsed timestamp in ms;
`none` covers both a missing string and one Date.parse rejects. -/
structure NewsItem where
  publishedAt : Option ℚ := none
  sentiment : Option ℚ := none
  importance : Option ℚ := none
deriving DecidableEq, Repr

/-- EarningsCallSummary (research-data.ts). -/
structure EarningsCallSummary where
  publishedAt : Option ℚ := none
  tone : Option ℚ := none
  guidanceDelta : Option ℚ := none
  kpiTrends : Option (List String) := none
deriving DecidableEq, Repr

/-- InsiderActivity (research-data.ts). -/
structure InsiderActivity where
  netShares : Option ℚ := none
  netValue : Option ℚ := none
deriving DecidableEq, Repr

/-- InstitutionalFlow (research-data.ts). -/
structure InstitutionalFlow where
  netShares : Option ℚ := none
  netValue : Option ℚ := none
deriving DecidableEq, Repr

/-- LiquidityMetrics (research-data.ts). -/
structure LiquidityMetrics where
  avgVolume : Option ℚ := none
  avgDollarVolume : Option ℚ := none
  spreadPct : Option ℚ := none
deriving DecidableEq, Repr

/-- RiskFlags (research-data.ts); optional booleans, truthiness = `some true`. -/
structure RiskFlags where
  legalIssues : Option Bool := none
  accountingAnomaly : Option Bool := none
  regulatoryOverhang : Option Bool := none
  highShortInterest : Option Bool := none
deriving DecidableEq, Repr

/-- ResearchData (research-data.ts): per-symbol records modelled as association
lists (JS objects keyed by symbol); the shared field spelled m-a-c-r-o in the
source is `macroData` here. -/
structure ResearchData where
  fundamentals : List (String × Fundamentals) := []
  technicals : List (String × Technicals) := []
  macroData : MacroData := {}
  news : List (String × List NewsItem) := []
  earnings : List (String × List EarningsCallSummary) := []
  insider : List (String × InsiderActivity) := []
  institutional : List (String × InstitutionalFlow) := []
  liquidity : List (String × LiquidityMetrics) := []
  risk : List (String × RiskFlags) := []
  sources : List (String × List String) := []
deriving DecidableEq, Repr

/-- SnapshotBar (market-data.ts); only the close `c` is read by this engine. -/
structure SnapshotBar where
  c : ℚ
deriving DecidableEq, Repr

/-- Latest trade; only the price `p` is read. -/
structure TradePrice where
  p : ℚ
deriving DecidableEq, Repr

/-- SymbolSnapshot (market-data.ts). -/
structure SymbolSnapshot where
  latestTrade : Option TradePrice := none
  dailyBar : Option SnapshotBar := none
deriving DecidableEq, Repr

/-- Position (alpaca.ts): marketValue is a string in the source, parsed with
Number.parseFloat; `none` models a non-finite parse (skipped by the code). -/
structure Position where
  symbol : String
  marketValue : Option ℚ := none
deriving DecidableEq, Repr

/-- The weight vector config.trading.research.weights (config.ts).  The field
spelled m-a-c-r-o in the source is `macroW` here. -/
structure Weights where
  fundamentals : ℚ
  technicals : ℚ
  macroW : ℚ
  sentiment : ℚ
  quality : ℚ
  valuation : ℚ
deriving DecidableEq, Repr

/-- Sum of the six weight components (Object.values(...).reduce((a,b) => a+b, 0)). -/
def Weights.wsum (w : Weights) : ℚ :=
  w.fundamentals + w.technicals + w.macroW + w.sentiment + w.quality + w.valuation

/-- config.trading.research (config.ts); riskMode is omitted (never read by the
engine). -/
structure ResearchConfig where
  confidenceFloor : ℚ := 0
  recencyHalfLifeDays : ℚ := 10
  weights : Weights
  maxCorrelation : ℚ := 1
  sectorCap : ℚ := 1
  industryCap : ℚ := 1
  minMarketCap : ℚ := 0
  minDollarVolume : ℚ := 0
  maxDrawdown : ℚ := 0
  excludeSectors : List String := []
  excludeIndustries : List String := []
  excludeSymbols : List String := []
deriving DecidableEq, Repr

/-- Checklist status union "pass" | "neutral" | "fail". -/
inductive ChecklistStatus where
  | pass
  | neutral
  | fail
deriving DecidableEq, Repr

/-- FactorChecklistItem (research.ts). -/
structure FactorChecklistItem where
  factor : String
  status : ChecklistStatus
  note : Option String := none
deriving DecidableEq, Repr

/-- The per-factor score breakdown of a candidate; the field spelled
m-a-c-r-o in the source is `macroF` here. -/
structure FactorScores where
  fundamentals : ℚ
  technicals : ℚ
  macroF : ℚ
  sentiment : ℚ
  quality : ℚ
  valuation : ℚ
  peer : ℚ
deriving DecidableEq, Repr

/-- ResearchCandidate (research.ts).  sector/industry are optional in the type
but always assigned (defaulted to "unknown"), so they are plain strings here. -/
structure ResearchCandidate where
  symbol : String
  sector : String
  industry : String
  score : ℚ
  confidence : ℚ
  factorScores : FactorScores
  checklist : List FactorChecklistItem
  redFlags : List String
  drivers : List String
  risks : List String
  nextSteps : List String
  sources : List String
  dataQuality : ℚ
  regime : MarketRegime
deriving DecidableEq, Repr

/-- ResearchExclusion (research.ts). -/
structure ResearchExclusion where
  symbol : String
  reasons : List String
  sector : String
  industry : String
deriving DecidableEq, Repr

/-- ResearchAnalysis (research.ts). -/
structure ResearchAnalysis where
  regime : MarketRegime
  candidates : List ResearchCandidate
  excluded : List ResearchExclusion
  weights : Weights
  constraints : ResearchConfig
  nextSteps : List String
  dataQuality : ℚ
deriving DecidableEq, Repr

/-- clamp (research.ts): Math.min(max, Math.max(min, value)). -/
def clamp (value lo hi : ℚ) : ℚ :=
  Min.min hi (Max.max lo value)

/-- normalize (research.ts).  The Number.isFinite guard is identically true
over ℚ. -/
def normalize (value lo hi : ℚ) : ℚ :=
  if hi = lo then 1/2 else clamp ((value - lo) / (hi - lo)) 0 1

/-- median (research.ts): sort ascending, middle element, mean of the two
middle elements for even length. -/
def median (values : List ℚ) : Option ℚ :=
  if values.length = 0 then none
  else
    let sorted := values.mergeSort (fun a b => a ≤ b)
    let mid := sorted.length / 2
    if sorted.length % 2 = 0 then
      some ((sorted.getD (mid - 1) 0 + sorted.getD mid 0) / 2)
    else
      some (sorted.getD mid 0)

/-- decayWeight (research.ts).  `now` is Date.now() in ms, `powHalf` models
x ↦ Math.pow(0.5, x); a missing/unparsable publishedAt gives 0, a future
timestamp gives 1. -/
def decayWeight (now : ℚ) (powHalf : ℚ → ℚ) (publishedAt : Option ℚ)
    (halfLifeDays : ℚ) : ℚ :=
  match publishedAt with
  | none => 0
  | some ts =>
    let ageDays := (now - ts) / 86400000
    if ageDays < 0 then 1 else powHalf (ageDays / Max.max 1 halfLifeDays)

/-- detectRegime (research.ts). -/
def detectRegime (m : MacroData) : MarketRegime :=
  let vix := m.vix.getD 0
  let riskOn := m.riskOnScore.getD (1/2)
  let trend := m.marketTrend.getD .flat
  if vix ≥ 25 then .high_vol
  else if riskOn ≥ 0.6 ∧ trend = .up then .risk_on
  else if riskOn ≤ 0.4 ∧ trend = .down then .risk_off
  else .neutral

/-- average (research.ts): drops undefined entries (the non-finite filter is
identically true over ℚ); 0.5 on an empty list. -/
def average (values : List (Option ℚ)) : ℚ :=
  let list := values.filterMap id
  if list.length = 0 then 1/2 else list.sum / list.length

/-- weightedAverage (research.ts): keeps items with weight > 0 (the finiteness
filters are identically true over ℚ); 0.5 when nothing remains. -/
def weightedAverage (items : List (ℚ × ℚ)) : ℚ :=
  let filtered := items.filter (fun i => i.2 > 0)
  if filtered.length = 0 then 1/2
  else
    let totalWeight := (filtered.map (fun i => i.2)).sum
    if totalWeight = 0 then 1/2
    else (filtered.map (fun i => i.1 * i.2)).sum / totalWeight

/-- scorePositive (research.ts). -/
def scorePositive (value : Option ℚ) (mid high : ℚ) : ℚ :=
  match value with
  | none => 1/2
  | some v =>
    if v ≤ 0 then 0.2
    else if v ≥ high then 1
    else if v ≤ mid then 0.6
    else normalize v mid high

/-- scoreInverse (research.ts). -/
def scoreInverse (value : Option ℚ) (good bad : ℚ) : ℚ :=
  match value with
  | none => 1/2
  | some v =>
    if v ≤ good then 1
    else if v ≥ bad then 0.2
    else clamp (1 - (v - good) / (bad - good)) 0 1

/-- compareToMedian (research.ts). -/
def compareToMedian (value medianValue : ℚ) : ℚ :=
  let diff := value - medianValue
  let scale := Max.max 0.0001 |medianValue|
  clamp (1/2 + diff / (2 * scale)) 0 1

/-- computeFundamentalScore (research.ts). -/
def computeFundamentalScore (f : Option Fundamentals) : ℚ :=
  match f with
  | none => 1/2
  | some f =>
    let growth := average [some (scorePositive f.revenueGrowth 0.05 0.15),
      some (scorePositive f.epsGrowth 0.05 0.2)]
    let profitability := average [some (scorePositive f.operatingMargin 0.1 0.25),
      some (scorePositive f.netMargin 0.05 0.2)]
    let leverage := scoreInverse f.debtToEquity 1.0 3.0
    average [some growth, some profitability, some leverage]

/-- computeQualityScore (research.ts). -/
def computeQualityScore (f : Option Fundamentals) : ℚ :=
  match f with
  | none => 1/2
  | some f =>
    average [some (scorePositive f.roic 0.1 0.2),
      some (scorePositive f.roe 0.1 0.25),
      some (scorePositive f.fcfYield 0.03 0.08)]

/-- computeValuationScore (research.ts). -/
def computeValuationScore (f : Option Fundamentals) : ℚ :=
  match f with
  | none => 1/2
  | some f =>
    let peScore := scoreInverse f.pe 15 40
    let psScore := scoreInverse f.ps 3 10
    let evScore := scoreInverse f.evEbitda 10 25
    average [some peScore, some psScore, some evScore]

/-- The rsiScore term of computeTechnicalScore: closeness of RSI to 50. -/
def rsiScoreOf (o : Option ℚ) : ℚ :=
  match o with
  | some r => clamp (1 - |r - 50| / 50) 0 1
  | none => 1/2

/-- The trendScore term of computeTechnicalScore: price versus 200-day moving
average. -/
def trendPositionScore (price sma : Option ℚ) : ℚ :=
  match price, sma with
  | some p, some sma => clamp ((p - sma) / Max.max 1 sma + 0.5) 0 1
  | _, _ => 1/2

/-- The insider/institutional pattern of computeSentimentScore: normalize when
present, 0.5 otherwise. -/
def optNormalize (o : Option ℚ) (lo hi : ℚ) : ℚ :=
  match o with
  | some v => normalize v lo hi
  | none => 1/2

/-- The trendScore term of computeMacroScore. -/
def trendScoreOf (o : Option MarketTrend) : ℚ :=
  match o with
  | some .up => 0.7
  | some .down => 0.3
  | _ => 1/2

/-- The vixPenalty term of computeMacroScore. -/
def vixPenaltyOf (o : Option ℚ) : ℚ :=
  match o with
  | some v => clamp (1 - (v - 15) / 20) 0 1
  | none => 1/2

/-- One guarded comparison of computePeerScore: present on both sides, else no
contribution. -/
def peerCompare (v m : Option ℚ) : List ℚ :=
  match v, m with
  | some v, some m => [compareToMedian v m]
  | _, _ => []

/-- computeTechnicalScore (research.ts). -/
def computeTechnicalScore (t : Option Technicals) (s : Option SymbolSnapshot) : ℚ :=
  match t, s with
  | none, none => 1/2
  | t, s =>
    let rsiScore := rsiScoreOf (t.bind Technicals.rsi)
    let momentum := average [some (scorePositive (t.bind Technicals.momentum1m) 0.02 0.08),
      some (scorePositive (t.bind Technicals.momentum3m) 0.04 0.15),
      some (scorePositive (t.bind Technicals.momentum6m) 0.06 0.2)]
    let price := ((s.bind SymbolSnapshot.dailyBar).map SnapshotBar.c) <|>
      ((s.bind SymbolSnapshot.latestTrade).map TradePrice.p)
    let trendScore := trendPositionScore price (t.bind Technicals.sma200)
    average [some rsiScore, some momentum, some trendScore]

/-- computeSentimentScore (research.ts). -/
def computeSentimentScore (now : ℚ) (powHalf : ℚ → ℚ)
    (news : Option (List NewsItem)) (earnings : Option (List EarningsCallSummary))
    (insider : Option InsiderActivity) (institutional : Option InstitutionalFlow)
    (halfLifeDays : ℚ) : ℚ :=
  let newsScore := weightedAverage ((news.getD []).map fun n =>
    (normalize ((n.sentiment.getD 0) + 1) 0 2,
     (n.importance.getD 1) * decayWeight now powHalf n.publishedAt halfLifeDays))
  let earningsScore := weightedAverage ((earnings.getD []).map fun e =>
    (normalize ((e.tone.getD 0) + 1) 0 2,
     decayWeight now powHalf e.publishedAt halfLifeDays))
  let insiderScore := optNormalize (insider.bind InsiderActivity.netValue) (-1000000) 1000000
  let institutionalScore := optNormalize (institutional.bind InstitutionalFlow.netValue) (-5000000) 5000000
  average [some newsScore, some earningsScore, some insiderScore, some institutionalScore]

/-- computeMacroScore (research.ts). -/
def computeMacroScore (m : MacroData) (regime : MarketRegime) : ℚ :=
  let riskOn := m.riskOnScore.getD (1/2)
  let trendScore := trendScoreOf m.marketTrend
  let vixPenalty := vixPenaltyOf m.vix
  let base := average [some riskOn, some trendScore, some vixPenalty]
  match regime with
  | .high_vol => base * 0.8
  | .risk_on => clamp (base + 0.1) 0 1
  | .risk_off => clamp (base - 0.1) 0 1
  | .neutral => base

/-- Peer medians of one sector (the inner record of computePeerMedians). -/
structure PeerMedians where
  revenueGrowth : Option ℚ := none
  netMargin : Option ℚ := none
  pe : Option ℚ := none
  fcfYield : Option ℚ := none
deriving DecidableEq, Repr

/-- The empty record used for `peerMedians[sector] ?? ` with an empty-object
fallback in research.ts. -/
def emptyPeerMedians : PeerMedians := {}

/-- computePeerScore (research.ts).  Note the deliberately reversed comparison
for pe (lower is better). -/
def computePeerScore (f : Option Fundamentals) (peerMedians : PeerMedians) : ℚ :=
  match f with
  | none => 1/2
  | some f =>
    let scores :=
      peerCompare f.revenueGrowth peerMedians.revenueGrowth ++
      peerCompare f.netMargin peerMedians.netMargin ++
      peerCompare peerMedians.pe f.pe ++
      peerCompare f.fcfYield peerMedians.fcfYield
    if scores.length > 0 then average (scores.map some) else 1/2

/-- buildChecklistItem (research.ts). -/
def buildChecklistItem (factor : String) (value : Option ℚ)
    (neutralFloor passFloor : ℚ) : FactorChecklistItem :=
  match value with
  | none => { factor := factor, status := .neutral, note := some "missing" }
  | some v =>
    if v ≥ passFloor then { factor := factor, status := .pass }
    else if v ≥ neutralFloor then { factor := factor, status := .neutral }
    else { factor := factor, status := .fail }

/-- buildChecklist (research.ts).  The JS divisions 1/debtToEquity and 1/pe
yield Infinity at 0, which buildChecklistItem's finiteness guard maps to the
missing branch; that is modelled by returning none at a zero divisor. -/
def buildChecklist (f : Option Fundamentals) : List FactorChecklistItem :=
  [ buildChecklistItem "growth" (f.bind Fundamentals.revenueGrowth) 0 0.05,
    buildChecklistItem "profitability" (f.bind Fundamentals.netMargin) 0.02 0.08,
    buildChecklistItem "leverage"
      (match f.bind Fundamentals.debtToEquity with
        | some d => if d = 0 then none else some (1 / d)
        | none => none) 0.3 1,
    buildChecklistItem "moat" (f.bind Fundamentals.grossMargin) 0.35 0.5,
    buildChecklistItem "valuation"
      (match f.bind Fundamentals.pe with
        | some pe => if pe = 0 then none else some (1 / pe)
        | none => none) 0.02 0.06 ]

/-- List-of-characters substring test (helper for the regex tests below). -/
def hasSubstr (pat : List Char) : List Char → Bool
  | [] => pat.isEmpty
  | c :: rest => pat.isPrefixOf (c :: rest) || hasSubstr pat rest

/-- The test s =~ /up|growth|improv/i from collectDrivers, as a
case-insensitive substring check. -/
def kpiUpTest (s : String) : Bool :=
  hasSubstr "up".toList s.toLower.toList ||
  hasSubstr "growth".toList s.toLower.toList ||
  hasSubstr "improv".toList s.toLower.toList

/-- The test s =~ /down|declin|deterior/i from collectRisks. -/
def kpiDownTest (s : String) : Bool :=
  hasSubstr "down".toList s.toLower.toList ||
  hasSubstr "declin".toList s.toLower.toList ||
  hasSubstr "deterior".toList s.toLower.toList

/-- collectDrivers (research.ts). -/
def collectDrivers (f : Option Fundamentals) (t : Option Technicals)
    (earnings : Option (List EarningsCallSummary))
    (insider : Option InsiderActivity)
    (institutional : Option InstitutionalFlow) : List String :=
  let latestEarnings := (earnings.getD []).head?
  (((match f.bind Fundamentals.revenueGrowth with
      | some v => if v > 0.1 then ["Strong revenue growth"] else []
      | none => []) ++
    (match f.bind Fundamentals.netMargin with
      | some v => if v > 0.15 then ["High profitability"] else []
      | none => []) ++
    (match f.bind Fundamentals.roic with
      | some v => if v > 0.15 then ["High ROIC quality"] else []
      | none => []) ++
    (match t.bind Technicals.momentum3m with
      | some v => if v > 0.1 then ["Positive 3M momentum"] else []
      | none => []) ++
    (match t.bind Technicals.rsi with
      | some v => if v < 40 then ["RSI reset provides upside"] else []
      | none => []) ++
    (match latestEarnings.bind EarningsCallSummary.tone with
      | some v => if v > 0.4 then ["Positive earnings call tone"] else []
      | none => []) ++
    (match latestEarnings.bind EarningsCallSummary.guidanceDelta with
      | some v => if v > 0 then ["Guidance raised"] else []
      | none => []) ++
    (if ((latestEarnings.bind EarningsCallSummary.kpiTrends).getD []).any kpiUpTest
      then ["KPIs trending up"] else []) ++
    (match insider.bind InsiderActivity.netValue with
      | some v => if v > 0 then ["Insider buying activity"] else []
      | none => []) ++
    (match institutional.bind InstitutionalFlow.netValue with
      | some v => if v > 0 then ["Institutional inflows"] else []
      | none => []))).take 3

/-- collectRisks (research.ts). -/
def collectRisks (liquidity : Option LiquidityMetrics) (risk : Option RiskFlags)
    (t : Option Technicals)
    (earnings : Option (List EarningsCallSummary)) : List String :=
  let latestEarnings := (earnings.getD []).head?
  (((match liquidity.bind LiquidityMetrics.avgDollarVolume with
      | some v => if v < 10000000 then ["Low liquidity"] else []
      | none => []) ++
    (if risk.bind RiskFlags.legalIssues = some true then ["Legal overhang"] else []) ++
    (if risk.bind RiskFlags.accountingAnomaly = some true
      then ["Accounting anomaly"] else []) ++
    (match t.bind Technicals.maxDrawdown with
      | some v => if v > 0.4 then ["Deep drawdown risk"] else []
      | none => []) ++
    (match latestEarnings.bind EarningsCallSummary.tone with
      | some v => if v < -0.3 then ["Negative earnings tone"] else []
      | none => []) ++
    (match latestEarnings.bind EarningsCallSummary.guidanceDelta with
      | some v => if v < 0 then ["Guidance cut"] else []
      | none => []) ++
    (if ((latestEarnings.bind EarningsCallSummary.kpiTrends).getD []).any kpiDownTest
      then ["KPIs trending down"] else []))).take 3

/-- computeDataQuality (research.ts): the list holds the presence of each data
part (p != null). -/
def computeDataQuality (parts : List Bool) : ℚ :=
  let total := parts.length
  if total = 0 then 1/2
  else clamp ((parts.count true : ℚ) / (total : ℚ)) 0.2 1

/-- adjustWeightsForRegime (research.ts): fixed deltas per regime, then divide
by the component sum (JS `sum or 1` when the sum is 0, i.e. falsy). -/
def adjustWeightsForRegime (weights : Weights) (regime : MarketRegime) : Weights :=
  let out : Weights := match regime with
    | .high_vol =>
      { weights with
        quality := weights.quality + 0.05,
        valuation := weights.valuation + 0.05,
        technicals := weights.technicals - 0.05,
        sentiment := weights.sentiment - 0.05 }
    | .risk_on =>
      { weights with
        technicals := weights.technicals + 0.05,
        sentiment := weights.sentiment + 0.05,
        valuation := weights.valuation - 0.05,
        quality := weights.quality - 0.05 }
    | .risk_off =>
      { weights with
        fundamentals := weights.fundamentals + 0.05,
        valuation := weights.valuation + 0.05,
        technicals := weights.technicals - 0.05,
        sentiment := weights.sentiment - 0.05 }
    | .neutral => weights
  let divisor := if out.wsum = 0 then 1 else out.wsum
  { fundamentals := out.fundamentals / divisor,
    technicals := out.technicals / divisor,
    macroW := out.macroW / divisor,
    sentiment := out.sentiment / divisor,
    quality := out.quality / divisor,
    valuation := out.valuation / divisor }

/-- buildRedFlags (research.ts). -/
def buildRedFlags (constraints : ResearchConfig) (f : Option Fundamentals)
    (t : Option Technicals) (liquidity : Option LiquidityMetrics)
    (risk : Option RiskFlags) : List String :=
  (match f.bind Fundamentals.marketCap with
    | some mc =>
      if constraints.minMarketCap > 0 ∧ mc < constraints.minMarketCap
        then ["market cap below minimum"] else []
    | none => []) ++
  (match liquidity.bind LiquidityMetrics.avgDollarVolume with
    | some v =>
      if constraints.minDollarVolume > 0 ∧ v < constraints.minDollarVolume
        then ["dollar volume below minimum"] else []
    | none => []) ++
  (match t.bind Technicals.maxDrawdown with
    | some d =>
      if constraints.maxDrawdown > 0 ∧ d > constraints.maxDrawdown
        then ["drawdown exceeds max"] else []
    | none => []) ++
  (if risk.bind RiskFlags.legalIssues = some true then ["legal issues"] else []) ++
  (if risk.bind RiskFlags.accountingAnomaly = some true
    then ["accounting anomaly"] else []) ++
  (if risk.bind RiskFlags.regulatoryOverhang = some true
    then ["regulatory overhang"] else []) ++
  (if risk.bind RiskFlags.highShortInterest = some true
    then ["high short interest"] else [])

/-- Insertion-ordered Map upsert adding to a numeric total (Map.get ?? 0 then
Map.set keeps the key's position, a new key goes to the end). -/
def upsertAdd (m : List (String × ℚ)) (k : String) (v : ℚ) : List (String × ℚ) :=
  match m.lookup k with
  | some old => m.map (fun e => if e.1 = k then (k, old + v) else e)
  | none => m ++ [(k, v)]

/-- sectorIndustryWeights (research.ts): totals of position market value per
sector and industry, and the grand total (JS `total or 1` when falsy). -/
def sectorIndustryWeights (positions : List Position)
    (fundamentals : List (String × Fundamentals)) :
    List (String × ℚ) × List (String × ℚ) × ℚ :=
  let r := positions.foldl (fun (acc : List (String × ℚ) × List (String × ℚ) × ℚ) p =>
    match p.marketValue with
    | none => acc
    | some value =>
      let f := fundamentals.lookup p.symbol
      let sector := (f.bind Fundamentals.sector).getD "unknown"
      let industry := (f.bind Fundamentals.industry).getD "unknown"
      (upsertAdd acc.1 sector value, upsertAdd acc.2.1 industry value, acc.2.2 + value))
    ([], [], 0)
  (r.1, r.2.1, if r.2.2 = 0 then 1 else r.2.2)

/-- Insertion-ordered Map upsert appending to a list bucket. -/
def upsertAppend (m : List (String × List Fundamentals)) (k : String)
    (v : Fundamentals) : List (String × List Fundamentals) :=
  match m.lookup k with
  | some old => m.map (fun e => if e.1 = k then (k, old ++ [v]) else e)
  | none => m ++ [(k, [v])]

/-- computePeerMedians (research.ts): group the universe's fundamentals by
sector, then take per-field medians of the defined values. -/
def computePeerMedians (symbols : List String)
    (fundamentals : List (String × Fundamentals)) : List (String × PeerMedians) :=
  let bySector := symbols.foldl (fun acc symbol =>
    match fundamentals.lookup symbol with
    | none => acc
    | some f => upsertAppend acc (f.sector.getD "unknown") f) []
  bySector.map (fun e =>
    (e.1,
      { revenueGrowth := median (e.2.filterMap Fundamentals.revenueGrowth),
        netMargin := median (e.2.filterMap Fundamentals.netMargin),
        pe := median (e.2.filterMap Fundamentals.pe),
        fcfYield := median (e.2.filterMap Fundamentals.fcfYield) }))

/-- The arguments of buildResearchAnalysis (research.ts).  Only
config.trading.research is ever read from the config, so `research` holds that
sub-record. -/
structure BuildParams where
  symbols : List String
  snapshots : List (String × SymbolSnapshot) := []
  positions : List Position := []
  researchData : ResearchData := {}
  research : ResearchConfig

/-- The per-cycle values buildResearchAnalysis computes before its symbol loop,
together with the ambient inputs (`now`, `powHalf`) and the raw parameters the
loop body reads. -/
structure CycleCtx where
  now : ℚ
  powHalf : ℚ → ℚ
  snapshots : List (String × SymbolSnapshot)
  researchData : ResearchData
  research : ResearchConfig
  regime : MarketRegime
  peerMedians : List (String × PeerMedians)
  sectorTotals : List (String × ℚ)
  industryTotals : List (String × ℚ)
  total : ℚ
  weights : Weights

/-- The prologue of buildResearchAnalysis (research.ts lines up to the symbol
loop): regime detection, peer medians, sector and industry totals, and the
regime-adjusted effective weights. -/
def mkCycleCtx (now : ℚ) (powHalf : ℚ → ℚ) (params : BuildParams) : CycleCtx :=
  let regime := detectRegime params.researchData.macroData
  let siw := sectorIndustryWeights params.positions params.researchData.fundamentals
  { now := now
    powHalf := powHalf
    snapshots := params.snapshots
    researchData := params.researchData
    research := params.research
    regime := regime
    peerMedians := computePeerMedians params.symbols params.researchData.fundamentals
    sectorTotals := siw.1
    industryTotals := siw.2.1
    total := siw.2.2
    weights := adjustWeightsForRegime params.research.weights regime }

/-- The per-symbol lookup researchData.fundamentals of the loop body. -/
def fOf (ctx : CycleCtx) (s : String) : Option Fundamentals :=
  ctx.researchData.fundamentals.lookup s

/-- The per-symbol lookup researchData.technicals. -/
def tOf (ctx : CycleCtx) (s : String) : Option Technicals :=
  ctx.researchData.technicals.lookup s

/-- The per-symbol lookup researchData.news. -/
def newsOf (ctx : CycleCtx) (s : String) : Option (List NewsItem) :=
  ctx.researchData.news.lookup s

/-- The per-symbol lookup researchData.earnings. -/
def earningsOf (ctx : CycleCtx) (s : String) : Option (List EarningsCallSummary) :=
  ctx.researchData.earnings.lookup s

/-- The per-symbol lookup researchData.insider. -/
def insiderOf (ctx : CycleCtx) (s : String) : Option InsiderActivity :=
  ctx.researchData.insider.lookup s

/-- The per-symbol lookup researchData.institutional. -/
def institutionalOf (ctx : CycleCtx) (s : String) : Option InstitutionalFlow :=
  ctx.researchData.institutional.lookup s

/-- The per-symbol lookup researchData.liquidity. -/
def liquidityOf (ctx : CycleCtx) (s : String) : Option LiquidityMetrics :=
  ctx.researchData.liquidity.lookup s

/-- The per-symbol lookup researchData.risk. -/
def riskOf (ctx : CycleCtx) (s : String) : Option RiskFlags :=
  ctx.researchData.risk.lookup s

/-- The per-symbol lookup snapshots. -/
def snapshotOf (ctx : CycleCtx) (s : String) : Option SymbolSnapshot :=
  ctx.snapshots.lookup s

/-- The symbol's sector: f?.sector ?? "unknown". -/
def sectorOf (ctx : CycleCtx) (s : String) : String :=
  ((fOf ctx s).bind Fundamentals.sector).getD "unknown"

/-- The symbol's industry: f?.industry ?? "unknown". -/
def industryOf (ctx : CycleCtx) (s : String) : String :=
  ((fOf ctx s).bind Fundamentals.industry).getD "unknown"

/-- The seven factor scores of the loop body (research.ts lines 458-473). -/
def factorScoresOf (ctx : CycleCtx) (s : String) : FactorScores :=
  { fundamentals := computeFundamentalScore (fOf ctx s)
    technicals := computeTechnicalScore (tOf ctx s) (snapshotOf ctx s)
    macroF := computeMacroScore ctx.researchData.macroData ctx.regime
    sentiment := computeSentimentScore ctx.now ctx.powHalf (newsOf ctx s)
      (earningsOf ctx s) (insiderOf ctx s) (institutionalOf ctx s)
      ctx.research.recencyHalfLifeDays
    quality := computeQualityScore (fOf ctx s)
    valuation := computeValuationScore (fOf ctx s)
    peer := computePeerScore (fOf ctx s)
      ((ctx.peerMedians.lookup (((fOf ctx s).bind Fundamentals.sector).getD "unknown")).getD
        emptyPeerMedians) }

/-- weightedScore of the loop body (research.ts lines 476-483), before any
clamping. -/
def rawWeightedScore (ctx : CycleCtx) (s : String) : ℚ :=
  let fs := factorScoresOf ctx s
  fs.fundamentals * ctx.weights.fundamentals +
  fs.technicals * ctx.weights.technicals +
  fs.macroF * ctx.weights.macroW +
  fs.sentiment * ctx.weights.sentiment +
  fs.quality * ctx.weights.quality +
  fs.valuation * ctx.weights.valuation +
  fs.peer * 0.05

/-- dataQuality of the loop body: presence of the eight per-symbol data parts. -/
def symbolDataQuality (ctx : CycleCtx) (s : String) : ℚ :=
  computeDataQuality [(fOf ctx s).isSome, (tOf ctx s).isSome, (newsOf ctx s).isSome,
    (earningsOf ctx s).isSome, (insiderOf ctx s).isSome,
    (institutionalOf ctx s).isSome, (liquidityOf ctx s).isSome,
    (riskOf ctx s).isSome]

/-- redFlags of the loop body. -/
def redFlagsOf (ctx : CycleCtx) (s : String) : List String :=
  buildRedFlags ctx.research (fOf ctx s) (tOf ctx s) (liquidityOf ctx s) (riskOf ctx s)

/-- sectorWeight of the loop body: (sectorTotals.get(sector) ?? 0) / total. -/
def sectorWeightOf (ctx : CycleCtx) (s : String) : ℚ :=
  (ctx.sectorTotals.lookup (sectorOf ctx s)).getD 0 / ctx.total

/-- industryWeight of the loop body. -/
def industryWeightOf (ctx : CycleCtx) (s : String) : ℚ :=
  (ctx.industryTotals.lookup (industryOf ctx s)).getD 0 / ctx.total

/-- exclusionReasons of the loop body (research.ts lines 504-527), in push
order. -/
def exclusionReasonsOf (ctx : CycleCtx) (s : String) : List String :=
  (if ctx.research.excludeSymbols.contains s then ["excluded symbol"] else []) ++
  (if ctx.research.excludeSectors.contains (sectorOf ctx s)
    then ["excluded sector"] else []) ++
  (if ctx.research.excludeIndustries.contains (industryOf ctx s)
    then ["excluded industry"] else []) ++
  (redFlagsOf ctx s).map (fun r => "red flag: " ++ r) ++
  (match (tOf ctx s).bind Technicals.correlationWithPortfolio with
    | some corr =>
      if corr > ctx.research.maxCorrelation then ["correlation above max"] else []
    | none => []) ++
  (if sectorWeightOf ctx s > ctx.research.sectorCap
    then ["sector cap exceeded"] else []) ++
  (if industryWeightOf ctx s > ctx.research.industryCap
    then ["industry cap exceeded"] else [])

/-- The aggregate next-step pushes of the loop body for a non-excluded symbol
(research.ts lines 540-551). -/
def candidateStepsOf (ctx : CycleCtx) (s : String) : List String :=
  (if (earningsOf ctx s).getD [] = []
    then [s ++ ": fetch earnings call summary"] else []) ++
  (if (newsOf ctx s).getD [] = []
    then [s ++ ": review recent news sentiment"] else []) ++
  (if (insiderOf ctx s).isNone then [s ++ ": check insider activity"] else []) ++
  (if (institutionalOf ctx s).isNone then [s ++ ": check institutional flows"] else [])

/-- buildNextStepsFromChecklist (research.ts). -/
def buildNextStepsFromChecklist (checklist : List FactorChecklistItem) : List String :=
  (checklist.map (fun item =>
    (if item.status = .fail then ["revalidate " ++ item.factor ++ " thesis"] else []) ++
    (if item.status = .neutral ∧ item.note = some "missing"
      then ["collect missing " ++ item.factor ++ " data"] else []))).flatten

/-- The ResearchCandidate the loop body pushes for a non-excluded symbol
(research.ts lines 553-581).  The JS `new Set` spreads preserve first
occurrences, which is List.eraseDups. -/
def mkCandidate (ctx : CycleCtx) (s : String) : ResearchCandidate :=
  { symbol := s
    sector := sectorOf ctx s
    industry := industryOf ctx s
    score := clamp (rawWeightedScore ctx s) 0 1
    confidence := clamp (rawWeightedScore ctx s * 0.7 + symbolDataQuality ctx s * 0.3) 0 1
    factorScores := factorScoresOf ctx s
    checklist := buildChecklist (fOf ctx s)
    redFlags := redFlagsOf ctx s
    drivers := collectDrivers (fOf ctx s) (tOf ctx s) (earningsOf ctx s)
      (insiderOf ctx s) (institutionalOf ctx s)
    risks := collectRisks (liquidityOf ctx s) (riskOf ctx s) (tOf ctx s) (earningsOf ctx s)
    nextSteps := (buildNextStepsFromChecklist (buildChecklist (fOf ctx s)) ++
      (if symbolDataQuality ctx s < 0.6 then ["fill missing data for key factors"] else [])).eraseDups
    sources := (ctx.researchData.sources.lookup s).getD []
    dataQuality := symbolDataQuality ctx s
    regime := ctx.regime }

/-- Result of one iteration of the symbol loop: the symbol's data quality, its
classification as exclusion or candidate, and its aggregate next-step pushes. -/
structure SymbolEval where
  dq : ℚ
  result : ResearchExclusion ⊕ ResearchCandidate
  steps : List String

/-- One iteration of the symbol loop of buildResearchAnalysis. -/
def evalSymbol (ctx : CycleCtx) (s : String) : SymbolEval :=
  if (exclusionReasonsOf ctx s).length > 0 then
    { dq := symbolDataQuality ctx s
      result := .inl
        { symbol := s
          reasons := exclusionReasonsOf ctx s
          sector := sectorOf ctx s
          industry := industryOf ctx s }
      steps := [] }
  else
    { dq := symbolDataQuality ctx s
      result := .inr (mkCandidate ctx s)
      steps := candidateStepsOf ctx s }

/-- The mutable accumulators of the symbol loop. -/
structure BuildAcc where
  candidates : List ResearchCandidate := []
  excluded : List ResearchExclusion := []
  nextSteps : List String := []
  dqSum : ℚ := 0

/-- One pass of the symbol loop acting on the accumulators. -/
def stepAcc (ctx : CycleCtx) (acc : BuildAcc) (s : String) : BuildAcc :=
  let e := evalSymbol ctx s
  match e.result with
  | .inl exc =>
    { acc with excluded := acc.excluded ++ [exc], dqSum := acc.dqSum + e.dq }
  | .inr cand =>
    { acc with
      candidates := acc.candidates ++ [cand],
      nextSteps := acc.nextSteps ++ e.steps,
      dqSum := acc.dqSum + e.dq }

/-- buildResearchAnalysis (research.ts).  The JS candidates.sort with
comparator (a, b) => b.score - a.score is a stable descending sort by score,
modelled by the stable mergeSort; `[...new Set(...)]` is eraseDups. -/
def buildResearchAnalysis (now : ℚ) (powHalf : ℚ → ℚ) (params : BuildParams) :
    ResearchAnalysis :=
  let ctx := mkCycleCtx now powHalf params
  let acc := params.symbols.foldl (stepAcc ctx) {}
  let sorted := acc.candidates.mergeSort (fun a b => b.score ≤ a.score)
  let overallQuality : ℚ :=
    if acc.candidates.length > 0 then acc.dqSum / acc.candidates.length else 1/2
  { regime := ctx.regime
    candidates := sorted
    excluded := acc.excluded
    weights := ctx.weights
    constraints := params.research
    nextSteps := acc.nextSteps.eraseDups.take 15
    dataQuality := overallQuality }

namespace RunCycle

/-- An open paper trade row (run-cycle.ts / db.ts): entryAt is the parsed
entry timestamp in ms; factors is the entry factor-score snapshot. -/
structure PaperTradeOpen where
  id : ℤ
  symbol : String
  entryAt : ℚ
  entryPrice : ℚ
  horizonDays : ℚ
  factors : List (String × ℚ) := []
deriving DecidableEq, Repr

/-- A paper-trade closure row produced by evaluatePaperTrades. -/
structure PaperTradeClosure where
  id : ℤ
  exitAt : ℚ
  exitPrice : ℚ
  returnPct : ℚ
  notes : Option String := none
deriving DecidableEq, Repr

/-- The price read in run-cycle.ts: snap?.dailyBar?.c ?? snap?.latestTrade?.p. -/
def priceOf (snapshots : List (String × SymbolSnapshot)) (symbol : String) : Option ℚ :=
  let snap := snapshots.lookup symbol
  ((snap.bind SymbolSnapshot.dailyBar).map SnapshotBar.c) <|>
    ((snap.bind SymbolSnapshot.latestTrade).map TradePrice.p)

/-- The body of the evaluatePaperTrades loop for one open trade (run-cycle.ts
lines 831-846): close once the elapsed age in days reaches the horizon,
provided a price is available and the entry price is non-zero. -/
def closeTrade (now : ℚ) (snapshots : List (String × SymbolSnapshot))
    (trade : PaperTradeOpen) : Option PaperTradeClosure :=
  let ageDays := (now - trade.entryAt) / 86400000
  if ageDays < trade.horizonDays then none
  else
    match priceOf snapshots trade.symbol with
    | none => none
    | some price =>
      if trade.entryPrice = 0 then none
      else
        some
          { id := trade.id
            exitAt := now
            exitPrice := price
            returnPct := (price - trade.entryPrice) / trade.entryPrice
            notes := some "weekly evaluation" }

/-- evaluatePaperTrades (run-cycle.ts). -/
def evaluatePaperTrades (now : ℚ) (openTrades : List PaperTradeOpen)
    (snapshots : List (String × SymbolSnapshot)) : List PaperTradeClosure :=
  openTrades.filterMap (closeTrade now snapshots)

/-- Lookup in the JS Map built from openTrades keyed by id: on duplicate ids
the last entry wins. -/
def tradeById (openTrades : List PaperTradeOpen) (id : ℤ) : Option PaperTradeOpen :=
  openTrades.foldl (fun acc t => if t.id = id then some t else acc) none

/-- average (run-cycle.ts): null on a missing or empty list. -/
def average (values : List ℚ) : Option ℚ :=
  if values.length = 0 then none else some (values.sum / values.length)

/-- The factor-snapshot values accumulated into the winners (winners = true) or
losers bucket for one factor key, in closure order (updateWeightsFromClosures,
run-cycle.ts lines 857-868). -/
def bucketValues (closures : List PaperTradeClosure)
    (openTrades : List PaperTradeOpen) (winners : Bool) (key : String) : List ℚ :=
  closures.foldl (fun (acc : List ℚ) c =>
    match tradeById openTrades c.id with
    | none => acc
    | some t =>
      if (decide (c.returnPct ≥ (0 : ℚ))) = winners
        then acc ++ (t.factors.filter (fun e => e.1 = key)).map (fun e => e.2)
        else acc) []

/-- One factor's weight update: skipped unless both the winner and loser
buckets are non-empty, else nudged by the 0.05 learning rate times the mean
difference. -/
def updateFactor (closures : List PaperTradeClosure)
    (openTrades : List PaperTradeOpen) (key : String) (w : ℚ) : ℚ :=
  match average (bucketValues closures openTrades true key),
    average (bucketValues closures openTrades false key) with
  | some winAvg, some loseAvg => w + 0.05 * (winAvg - loseAvg)
  | _, _ => w

/-- The weight vector after the per-factor update loop, before renormalization. -/
def preNormWeights (closures : List PaperTradeClosure)
    (openTrades : List PaperTradeOpen) (weights : Weights) : Weights :=
  { fundamentals := updateFactor closures openTrades "fundamentals" weights.fundamentals
    technicals := updateFactor closures openTrades "technicals" weights.technicals
    macroW := updateFactor closures openTrades "macro" weights.macroW
    sentiment := updateFactor closures openTrades "sentiment" weights.sentiment
    quality := updateFactor closures openTrades "quality" weights.quality
    valuation := updateFactor closures openTrades "valuation" weights.valuation }

/-- The final renormalization of updateWeightsFromClosures: divide by the
component sum (JS `sum or 1` when the sum is 0). -/
def renormWeights (w : Weights) : Weights :=
  let divisor := if w.wsum = 0 then 1 else w.wsum
  { fundamentals := w.fundamentals / divisor
    technicals := w.technicals / divisor
    macroW := w.macroW / divisor
    sentiment := w.sentiment / divisor
    quality := w.quality / divisor
    valuation := w.valuation / divisor }

/-- updateWeightsFromClosures (run-cycle.ts): null (no-op) below 3 closures,
else the renormalized updated weight vector. -/
def updateWeightsFromClosures (closures : List PaperTradeClosure)
    (openTrades : List PaperTradeOpen) (research : ResearchConfig) : Option Weights :=
  if closures.length < 3 then none
  else some (renormWeights (preNormWeights closures openTrades research.weights))

/-- A ResearchError row (db.ts).  The context string `factor=k score=v` is
modelled as the (k, v) pair it is formatted from. -/
structure ResearchError where
  symbol : String
  reason : String
  rule : Option String := none
  context : Option (String × ℚ) := none
deriving DecidableEq, Repr

/-- Object.entries(factors).sort((a, b) => a[1] - b[1])[0]: the stable
ascending sort by value, first entry. -/
def weakestFactor (factors : List (String × ℚ)) : Option (String × ℚ) :=
  (factors.mergeSort (fun a b => a.2 ≤ b.2)).head?

/-- The body of the logResearchErrorsFromClosures loop for one closure:
nothing unless the realized return is strictly below -5% and the trade is
known, else a ResearchError naming the weakest entry factor. -/
def logOne (openTrades : List PaperTradeOpen) (c : PaperTradeClosure) :
    Option ResearchError :=
  if c.returnPct ≥ -0.05 then none
  else
    match tradeById openTrades c.id with
    | none => none
    | some t =>
      let weakest := weakestFactor t.factors
      some
        { symbol := t.symbol
          reason := "paper trade loss"
          rule := weakest.map (fun w => "weak_" ++ w.1)
          context := weakest }

/-- logResearchErrorsFromClosures (run-cycle.ts), returning the list of
inserted ResearchError rows. -/
def logResearchErrorsFromClosures (closures : List PaperTradeClosure)
    (openTrades : List PaperTradeOpen) : List ResearchError :=
  if closures.length = 0 then []
  else closures.filterMap (logOne openTrades)

end RunCycle

/-- The candidate produced for a symbol by one loop iteration, if it is not
excluded. -/
def candOf (ctx : CycleCtx) (s : String) : Option ResearchCandidate :=
  match (evalSymbol ctx s).result with
  | .inr c => some c
  | .inl _ => none

/-- The exclusion produced for a symbol by one loop iteration, if any. -/
def exclOf (ctx : CycleCtx) (s : String) : Option ResearchExclusion :=
  match (evalSymbol ctx s).result with
  | .inl e => some e
  | .inr _ => none

/-- Modelled from the spec: the post-inclusion sector (or industry) weight of
section 4.5, "current portfolio market value concentrated in that
sector/industry, including this candidate's notional hypothetically ... as a
fraction of total position value".  No such quantity appears in the source;
this definition follows the spec's words for comparison with the source's
pre-inclusion weight. -/
def specPostInclusionWeight (sectorValue totalValue notional : ℚ) : ℚ :=
  (sectorValue + notional) / (totalValue + notional)

/-- A trivial stand-in for Math.pow(0.5, x), used where the decay weights are
irrelevant (no dated news or earnings items in the input). -/
def powHalf0 : ℚ → ℚ := fun _ => 0

/-- Math.pow(0.5, x) at nonnegative integer exponents, exact in binary
floating point for the small exponents exercised here. -/
def cPow : ℚ → ℚ := fun q => (1/2 : ℚ) ^ q.num.toNat

/-- An all-zero weight vector. -/
def zeroWeights : Weights :=
  { fundamentals := 0, technicals := 0, macroW := 0, sentiment := 0,
    quality := 0, valuation := 0 }

/-- Concrete research config putting all ranking weight on the macro factor. -/
def c1Research : ResearchConfig :=
  { weights :=
    { fundamentals := 0, technicals := 0, macroW := 1, sentiment := 0,
      quality := 0, valuation := 0 } }

/-- Concrete input whose single symbol has no per-symbol data and whose macro
riskOnScore of 5 drives the raw weighted score above 1. -/
def c1Params : BuildParams :=
  { symbols := ["AAA"]
    researchData := { macroData := { riskOnScore := some 5 } }
    research := c1Research }

/-- The default used when reading the head of a concrete candidate list. -/
def defaultCandidate : ResearchCandidate :=
  { symbol := "", sector := "", industry := "", score := 0, confidence := 0
    factorScores :=
    { fundamentals := 0, technicals := 0, macroF := 0,
      sentiment := 0, quality := 0, valuation := 0, peer := 0 }
    checklist := [], redFlags := [], drivers := [], risks := [], nextSteps := []
    sources := [], dataQuality := 0, regime := .neutral }

/-- Concrete research config with a 1/2 sector cap. -/
def c2Research : ResearchConfig :=
  { weights :=
    { fundamentals := 1, technicals := 0, macroW := 0, sentiment := 0,
      quality := 0, valuation := 0 }
    sectorCap := 1/2 }

/-- Sector assignments for the claim's concentration example. -/
def c2Fundamentals : List (String × Fundamentals) :=
  [("A", { sector := some "alpha" }), ("B", { sector := some "beta" }),
   ("C", { sector := some "alpha" }), ("D", { sector := some "gamma" })]

/-- The claim's concentration example: positions A = 700 and B = 300 dollars,
sector cap 1/2, candidate C in A's sector and candidate D in a fresh sector. -/
def c2Params : BuildParams :=
  { symbols := ["C", "D"]
    positions := [{ symbol := "A", marketValue := some 700 },
      { symbol := "B", marketValue := some 300 }]
    researchData := { fundamentals := c2Fundamentals }
    research := c2Research }

/-- Sector assignments for the post-inclusion counterexample. -/
def c2xFundamentals : List (String × Fundamentals) :=
  [("A", { sector := some "alpha" }), ("B", { sector := some "beta" }),
   ("NEW", { sector := some "alpha" })]

/-- Post-inclusion counterexample input: positions A = 400 and B = 600, sector
cap 1/2, candidate NEW in A's sector with a hypothetical notional of 300. -/
def c2xParams : BuildParams :=
  { symbols := ["NEW"]
    positions := [{ symbol := "A", marketValue := some 400 },
      { symbol := "B", marketValue := some 600 }]
    researchData := { fundamentals := c2xFundamentals }
    research := c2Research }

/-- Macro data of the declared shape whose riskOnScore is the finite value 5. -/
def c3Macro : MacroData := { riskOnScore := some 5 }

/-- Research config ranking purely by sentiment with a one-day half-life. -/
def c9Research : ResearchConfig :=
  { recencyHalfLifeDays := 1
    weights :=
    { fundamentals := 0, technicals := 0, macroW := 0, sentiment := 1,
      quality := 0, valuation := 0 } }

/-- Frozen input with two dated news items (day 0, positive; day 10, negative)
whose recency decay makes the output depend on the evaluation time. -/
def c9Params : BuildParams :=
  { symbols := ["AAA"]
    researchData :=
      { news := [("AAA",
          [ { publishedAt := some 0, sentiment := some 1, importance := some 1 },
            { publishedAt := some 864000000, sentiment := some (-1),
              importance := some 1 } ])] }
    research := c9Research }

/-- Research config denylisting the symbol EXC. -/
def c10Research : ResearchConfig :=
  { weights :=
    { fundamentals := 1, technicals := 0, macroW := 0, sentiment := 0,
      quality := 0, valuation := 0 }
    excludeSymbols := ["EXC"] }

/-- Input where the excluded symbol EXC carries all eight data parts (per-symbol
data quality 1) and the surviving candidate CAND carries none (data quality
0.2), so the aggregate data quality is (1 + 0.2) / 1 = 1.2. -/
def c10Params : BuildParams :=
  { symbols := ["EXC", "CAND"]
    researchData :=
      { fundamentals := [("EXC", {})]
        technicals := [("EXC", {})]
        news := [("EXC", [])]
        earnings := [("EXC", [])]
        insider := [("EXC", {})]
        institutional := [("EXC", {})]
        liquidity := [("EXC", {})]
        risk := [("EXC", {})] }
    research := c10Research }

/-- The balanced-mode default weight vector (config.ts). -/
def cfgB : ResearchConfig :=
  { weights :=
    { fundamentals := 3/10, technicals := 1/4, macroW := 3/20,
      sentiment := 1/10, quality := 1/10, valuation := 1/10 } }

/-- A config whose weight vector is all zeros. -/
def cfg0 : ResearchConfig := { weights := zeroWeights }

/-- The claim's weight-feedback closures: two winners and two losers. -/
def c4Closures : List RunCycle.PaperTradeClosure :=
  [ { id := 1, exitAt := 0, exitPrice := 105, returnPct := 1/20 },
    { id := 2, exitAt := 0, exitPrice := 105, returnPct := 1/20 },
    { id := 3, exitAt := 0, exitPrice := 95, returnPct := -1/20 },
    { id := 4, exitAt := 0, exitPrice := 95, returnPct := -1/20 } ]

/-- The claim's weight-feedback trades: technicals snapshots 0.8 and 0.6 for
the winners, 0.2 and 0.4 for the losers. -/
def c4Trades : List RunCycle.PaperTradeOpen :=
  [ { id := 1, symbol := "T1", entryAt := 0, entryPrice := 100, horizonDays := 7,
      factors := [("technicals", 8/10)] },
    { id := 2, symbol := "T2", entryAt := 0, entryPrice := 100, horizonDays := 7,
      factors := [("technicals", 6/10)] },
    { id := 3, symbol := "T3", entryAt := 0, entryPrice := 100, horizonDays := 7,
      factors := [("technicals", 2/10)] },
    { id := 4, symbol := "T4", entryAt := 0, entryPrice := 100, horizonDays := 7,
      factors := [("technicals", 4/10)] } ]

/-- A snapshot giving AAA a daily-bar close of 110. -/
def c5Snapshots : List (String × SymbolSnapshot) :=
  [("AAA", { dailyBar := some { c := 110 } })]

/-- A paper trade opened at time 0 with entry price 100 and a 7-day horizon. -/
def c5Trade : RunCycle.PaperTradeOpen :=
  { id := 1, symbol := "AAA", entryAt := 0, entryPrice := 100, horizonDays := 7 }

/-- An open trade with two factor snapshots, the weaker one named betaF. -/
def c6Trade : RunCycle.PaperTradeOpen :=
  { id := 1, symbol := "AAA", entryAt := 0, entryPrice := 100, horizonDays := 7,
    factors := [("alphaF", 3/10), ("betaF", 1/10)] }

/-- The single candidate produced by the c1Params run, for the C1 witness. -/
def c1Candidate : ResearchCandidate :=
  (buildResearchAnalysis 0 powHalf0 c1Params).candidates.headD defaultCandidate

/-- A frozen input with no news or earnings entries at all. -/
def c9EmptyParams : BuildParams :=
  { symbols := ["AAA"], research := c9Research }

/-- A closure at exactly the -5% threshold. -/
def c6ClosureEdge : RunCycle.PaperTradeClosure :=
  { id := 1, exitAt := 0, exitPrice := 95, returnPct := -(1/20) }

/-- A closure with a -10% realized return. -/
def c6ClosureLoss : RunCycle.PaperTradeClosure :=
  { id := 1, exitAt := 0, exitPrice := 90, returnPct := -(1/10) }

theorem clamp_bounds (x lo hi : ℚ) (h : lo ≤ hi) :
    lo ≤ clamp x lo hi ∧ clamp x lo hi ≤ hi := by
  unfold clamp
  exact ⟨le_min h (le_max_left lo x), min_le_left hi _⟩

theorem clamp_unit (x : ℚ) : 0 ≤ clamp x 0 1 ∧ clamp x 0 1 ≤ 1 :=
  clamp_bounds x 0 1 (by norm_num)

theorem normalize_unit (v lo hi : ℚ) : 0 ≤ normalize v lo hi ∧ normalize v lo hi ≤ 1 := by
  unfold normalize
  split
  · norm_num
  · exact clamp_unit _

theorem average_unit (values : List (Option ℚ))
    (h : ∀ v : ℚ, some v ∈ values → 0 ≤ v ∧ v ≤ 1) :
    0 ≤ average values ∧ average values ≤ 1 := by
  unfold average
  dsimp only
  have hmem : ∀ v ∈ values.filterMap id, 0 ≤ v ∧ v ≤ 1 := by
    intro v hv
    rw [List.mem_filterMap] at hv
    obtain ⟨o, ho, hov⟩ := hv
    cases o with
    | none => simp at hov
    | some w =>
      simp only [id_eq, Option.some.injEq] at hov
      exact hov ▸ h w ho
  split
  · norm_num
  · rename_i hlen
    have hpos : 0 < ((values.filterMap id).length : ℚ) := by
      have := Nat.pos_of_ne_zero hlen
      exact_mod_cast this
    constructor
    · exact div_nonneg (List.sum_nonneg fun x hx => (hmem x hx).1) (le_of_lt hpos)
    · rw [div_le_one hpos]
      calc (values.filterMap id).sum
          ≤ (values.filterMap id).length • (1 : ℚ) :=
            List.sum_le_card_nsmul _ 1 (fun x hx => (hmem x hx).2)
        _ = ((values.filterMap id).length : ℚ) := by simp

theorem weightedAverage_unit (items : List (ℚ × ℚ))
    (h : ∀ i ∈ items, 0 ≤ i.1 ∧ i.1 ≤ 1) :
    0 ≤ weightedAverage items ∧ weightedAverage items ≤ 1 := by
  unfold weightedAverage
  dsimp only
  have hflt : ∀ i ∈ items.filter (fun i => i.2 > 0), (0 ≤ i.1 ∧ i.1 ≤ 1) ∧ 0 < i.2 := by
    intro i hi
    rw [List.mem_filter] at hi
    exact ⟨h i hi.1, by simpa using hi.2⟩
  split
  · norm_num
  · split
    · norm_num
    · rename_i hlen htw
      have htwnn : 0 ≤ ((items.filter (fun i => i.2 > 0)).map (fun i => i.2)).sum := by
        apply List.sum_nonneg
        intro x hx
        rw [List.mem_map] at hx
        obtain ⟨i, hi, rfl⟩ := hx
        exact le_of_lt (hflt i hi).2
      have htwpos : 0 < ((items.filter (fun i => i.2 > 0)).map (fun i => i.2)).sum :=
        lt_of_le_of_ne htwnn (Ne.symm htw)
      constructor
      · apply div_nonneg _ htwnn
        apply List.sum_nonneg
        intro x hx
        rw [List.mem_map] at hx
        obtain ⟨i, hi, rfl⟩ := hx
        exact mul_nonneg ((hflt i hi).1.1) (le_of_lt (hflt i hi).2)
      · rw [div_le_one htwpos]
        apply List.sum_le_sum
        intro i hi
        calc i.1 * i.2 ≤ 1 * i.2 :=
              mul_le_mul_of_nonneg_right ((hflt i hi).1.2) (le_of_lt (hflt i hi).2)
          _ = i.2 := one_mul _

theorem average_two (a b : ℚ) : average [some a, some b] = (a + b) / 2 := by
  simp [average]

theorem average_three (a b c : ℚ) :
    average [some a, some b, some c] = (a + b + c) / 3 := by
  simp [average]
  ring

theorem average_four (a b c d : ℚ) :
    average [some a, some b, some c, some d] = (a + b + c + d) / 4 := by
  simp [average]
  ring

theorem average_two_unit (a b : ℚ) (ha : 0 ≤ a ∧ a ≤ 1) (hb : 0 ≤ b ∧ b ≤ 1) :
    0 ≤ average [some a, some b] ∧ average [some a, some b] ≤ 1 := by
  rw [average_two]
  constructor <;> [linarith [ha.1, hb.1]; linarith [ha.2, hb.2]]

theorem average_three_unit (a b c : ℚ) (ha : 0 ≤ a ∧ a ≤ 1) (hb : 0 ≤ b ∧ b ≤ 1)
    (hc : 0 ≤ c ∧ c ≤ 1) :
    0 ≤ average [some a, some b, some c] ∧ average [some a, some b, some c] ≤ 1 := by
  rw [average_three]
  constructor <;> [linarith [ha.1, hb.1, hc.1]; linarith [ha.2, hb.2, hc.2]]

theorem average_four_unit (a b c d : ℚ) (ha : 0 ≤ a ∧ a ≤ 1) (hb : 0 ≤ b ∧ b ≤ 1)
    (hc : 0 ≤ c ∧ c ≤ 1) (hd : 0 ≤ d ∧ d ≤ 1) :
    0 ≤ average [some a, some b, some c, some d] ∧
      average [some a, some b, some c, some d] ≤ 1 := by
  rw [average_four]
  constructor <;>
    [linarith [ha.1, hb.1, hc.1, hd.1]; linarith [ha.2, hb.2, hc.2, hd.2]]

theorem scorePositive_unit (value : Option ℚ) (mid high : ℚ) :
    0 ≤ scorePositive value mid high ∧ scorePositive value mid high ≤ 1 := by
  rcases value with _ | v
  · norm_num [scorePositive]
  · simp only [scorePositive]
    split_ifs
    · norm_num
    · norm_num
    · norm_num
    · exact normalize_unit v mid high

theorem scoreInverse_unit (value : Option ℚ) (good bad : ℚ) :
    0 ≤ scoreInverse value good bad ∧ scoreInverse value good bad ≤ 1 := by
  rcases value with _ | v
  · norm_num [scoreInverse]
  · simp only [scoreInverse]
    split_ifs
    · norm_num
    · norm_num
    · exact clamp_unit _

theorem compareToMedian_unit (v m : ℚ) :
    0 ≤ compareToMedian v m ∧ compareToMedian v m ≤ 1 := by
  unfold compareToMedian
  exact clamp_unit _

theorem rsiScoreOf_unit (o : Option ℚ) : 0 ≤ rsiScoreOf o ∧ rsiScoreOf o ≤ 1 := by
  rcases o with _ | r
  · norm_num [rsiScoreOf]
  · exact clamp_unit _

theorem trendPositionScore_unit (p sma : Option ℚ) :
    0 ≤ trendPositionScore p sma ∧ trendPositionScore p sma ≤ 1 := by
  rcases p with _ | p <;> rcases sma with _ | sma
  · norm_num [trendPositionScore]
  · norm_num [trendPositionScore]
  · norm_num [trendPositionScore]
  · exact clamp_unit _

theorem optNormalize_unit (o : Option ℚ) (lo hi : ℚ) :
    0 ≤ optNormalize o lo hi ∧ optNormalize o lo hi ≤ 1 := by
  rcases o with _ | v
  · norm_num [optNormalize]
  · exact normalize_unit v lo hi

theorem trendScoreOf_unit (o : Option MarketTrend) :
    0 ≤ trendScoreOf o ∧ trendScoreOf o ≤ 1 := by
  rcases o with _ | tr
  · norm_num [trendScoreOf]
  · cases tr <;> norm_num [trendScoreOf]

theorem vixPenaltyOf_unit (o : Option ℚ) : 0 ≤ vixPenaltyOf o ∧ vixPenaltyOf o ≤ 1 := by
  rcases o with _ | v
  · norm_num [vixPenaltyOf]
  · exact clamp_unit _

theorem peerCompare_unit (a b : Option ℚ) : ∀ x ∈ peerCompare a b, 0 ≤ x ∧ x ≤ 1 := by
  intro x hx
  rcases a with _ | a <;> rcases b with _ | b <;> simp [peerCompare] at hx
  rw [hx]
  exact compareToMedian_unit a b

theorem computeFundamentalScore_unit (f : Option Fundamentals) :
    0 ≤ computeFundamentalScore f ∧ computeFundamentalScore f ≤ 1 := by
  rcases f with _ | f
  · norm_num [computeFundamentalScore]
  · simp only [computeFundamentalScore]
    exact average_three_unit _ _ _
      (average_two_unit _ _ (scorePositive_unit _ _ _) (scorePositive_unit _ _ _))
      (average_two_unit _ _ (scorePositive_unit _ _ _) (scorePositive_unit _ _ _))
      (scoreInverse_unit _ _ _)

theorem computeQualityScore_unit (f : Option Fundamentals) :
    0 ≤ computeQualityScore f ∧ computeQualityScore f ≤ 1 := by
  rcases f with _ | f
  · norm_num [computeQualityScore]
  · simp only [computeQualityScore]
    exact average_three_unit _ _ _ (scorePositive_unit _ _ _) (scorePositive_unit _ _ _)
      (scorePositive_unit _ _ _)

theorem computeValuationScore_unit (f : Option Fundamentals) :
    0 ≤ computeValuationScore f ∧ computeValuationScore f ≤ 1 := by
  rcases f with _ | f
  · norm_num [computeValuationScore]
  · simp only [computeValuationScore]
    exact average_three_unit _ _ _ (scoreInverse_unit _ _ _) (scoreInverse_unit _ _ _)
      (scoreInverse_unit _ _ _)

theorem computeTechnicalScore_unit (t : Option Technicals) (s : Option SymbolSnapshot) :
    0 ≤ computeTechnicalScore t s ∧ computeTechnicalScore t s ≤ 1 := by
  rcases t with _ | t <;> rcases s with _ | s
  · norm_num [computeTechnicalScore]
  all_goals
    exact average_three_unit _ _ _ (rsiScoreOf_unit _)
      (average_three_unit _ _ _ (scorePositive_unit _ _ _) (scorePositive_unit _ _ _)
        (scorePositive_unit _ _ _))
      (trendPositionScore_unit _ _)

theorem computeSentimentScore_unit (now : ℚ) (powHalf : ℚ → ℚ)
    (news : Option (List NewsItem)) (earnings : Option (List EarningsCallSummary))
    (insider : Option InsiderActivity) (institutional : Option InstitutionalFlow)
    (halfLifeDays : ℚ) :
    0 ≤ computeSentimentScore now powHalf news earnings insider institutional halfLifeDays ∧
      computeSentimentScore now powHalf news earnings insider institutional halfLifeDays ≤ 1 := by
  unfold computeSentimentScore
  dsimp only
  apply average_four_unit
  · apply weightedAverage_unit
    intro i hi
    rw [List.mem_map] at hi
    obtain ⟨n, _, rfl⟩ := hi
    exact normalize_unit _ _ _
  · apply weightedAverage_unit
    intro i hi
    rw [List.mem_map] at hi
    obtain ⟨e, _, rfl⟩ := hi
    exact normalize_unit _ _ _
  · exact optNormalize_unit _ _ _
  · exact optNormalize_unit _ _ _

theorem computeMacroScore_unit (m : MacroData) (regime : MarketRegime)
    (hlo : 0 ≤ m.riskOnScore.getD (1/2)) (hhi : m.riskOnScore.getD (1/2) ≤ 1) :
    0 ≤ computeMacroScore m regime ∧ computeMacroScore m regime ≤ 1 := by
  have hbase := average_three_unit (m.riskOnScore.getD (1/2)) (trendScoreOf m.marketTrend)
    (vixPenaltyOf m.vix) ⟨hlo, hhi⟩ (trendScoreOf_unit m.marketTrend)
    (vixPenaltyOf_unit m.vix)
  unfold computeMacroScore
  dsimp only
  rcases regime with _ | _ | _ | _
  · exact clamp_unit _
  · exact clamp_unit _
  · constructor
    · nlinarith [hbase.1]
    · nlinarith [hbase.1, hbase.2]
  · exact hbase

theorem computePeerScore_unit (f : Option Fundamentals) (pm : PeerMedians) :
    0 ≤ computePeerScore f pm ∧ computePeerScore f pm ≤ 1 := by
  rcases f with _ | f
  · norm_num [computePeerScore]
  · simp only [computePeerScore]
    split
    · apply average_unit
      intro v hv
      rw [List.mem_map] at hv
      obtain ⟨x, hx, hxv⟩ := hv
      rw [Option.some.injEq] at hxv
      subst hxv
      simp only [List.mem_append] at hx
      rcases hx with ((h | h) | h) | h
      · exact peerCompare_unit _ _ _ h
      · exact peerCompare_unit _ _ _ h
      · exact peerCompare_unit _ _ _ h
      · exact peerCompare_unit _ _ _ h
    · norm_num

/-- Renormalization by a non-zero component sum yields a vector summing to 1. -/
theorem renormWeights_wsum (w : Weights) (h : w.wsum ≠ 0) :
    (RunCycle.renormWeights w).wsum = 1 := by
  unfold RunCycle.renormWeights
  dsimp only
  rw [if_neg h]
  simp only [Weights.wsum] at h ⊢
  field_simp

/-- C3 counterexample: with the finite field value riskOnScore = 5 (and the
regime the code itself derives for it), the macro scorer returns 2, outside
[0, 1]. -/
theorem c3_scorers_counterexample :
    computeMacroScore c3Macro (detectRegime c3Macro) = 2 ∧
      ¬(computeMacroScore c3Macro (detectRegime c3Macro) ≤ 1) := by
  with_unfolding_all decide

/-- C3 (amended): every factor scorer returns a value in [0, 1] for every input
of the declared shape, except that the macro scorer needs its riskOnScore
(defaulted to 0.5 when absent) to lie in [0, 1]; and every scorer returns
exactly 0.5 when all its relevant inputs are absent. -/
theorem c3_scorers_amended :
    (∀ f, 0 ≤ computeFundamentalScore f ∧ computeFundamentalScore f ≤ 1) ∧
    (∀ f, 0 ≤ computeQualityScore f ∧ computeQualityScore f ≤ 1) ∧
    (∀ f, 0 ≤ computeValuationScore f ∧ computeValuationScore f ≤ 1) ∧
    (∀ t s, 0 ≤ computeTechnicalScore t s ∧ computeTechnicalScore t s ≤ 1) ∧
    (∀ now powHalf news earnings insider institutional hl,
      0 ≤ computeSentimentScore now powHalf news earnings insider institutional hl ∧
        computeSentimentScore now powHalf news earnings insider institutional hl ≤ 1) ∧
    (∀ f pm, 0 ≤ computePeerScore f pm ∧ computePeerScore f pm ≤ 1) ∧
    (∀ m regime, 0 ≤ m.riskOnScore.getD (1/2) → m.riskOnScore.getD (1/2) ≤ 1 →
      0 ≤ computeMacroScore m regime ∧ computeMacroScore m regime ≤ 1) ∧
    (computeFundamentalScore none = 1/2 ∧ computeQualityScore none = 1/2 ∧
     computeValuationScore none = 1/2 ∧ computeTechnicalScore none none = 1/2 ∧
     (∀ now powHalf hl, computeSentimentScore now powHalf none none none none hl = 1/2) ∧
     (∀ pm, computePeerScore none pm = 1/2) ∧
     computeMacroScore {} (detectRegime {}) = 1/2) := by
  refine ⟨computeFundamentalScore_unit, computeQualityScore_unit,
    computeValuationScore_unit, computeTechnicalScore_unit,
    computeSentimentScore_unit, computePeerScore_unit,
    (fun m regime hlo hhi => computeMacroScore_unit m regime hlo hhi),
    rfl, rfl, rfl, rfl, ?_, (fun _ => rfl), ?_⟩
  · intro now powHalf hl
    simp only [computeSentimentScore, Option.getD_none, Option.none_bind,
      List.map_nil]
    rw [show weightedAverage [] = 1/2 from rfl,
      show optNormalize none (-1000000) 1000000 = 1/2 from rfl,
      show optNormalize none (-5000000) 5000000 = 1/2 from rfl, average_four]
    norm_num
  · with_unfolding_all decide

/-- C3 witness: the amended macro bound applied at the empty macro record. -/
theorem c3_scorers_witness :
    0 ≤ computeMacroScore {} MarketRegime.neutral ∧
      computeMacroScore {} MarketRegime.neutral ≤ 1 :=
  c3_scorers_amended.2.2.2.2.2.2.1 {} MarketRegime.neutral
    (by with_unfolding_all decide) (by with_unfolding_all decide)

/-- C7 counterexample: on the all-zero base vector the adjusted weights sum to
0, not to 1 within 1e-9. -/
theorem c7_weight_sum_counterexample :
    (adjustWeightsForRegime zeroWeights MarketRegime.neutral).wsum = 0 ∧
      ¬(|(adjustWeightsForRegime zeroWeights MarketRegime.neutral).wsum - 1| ≤
        1 / 1000000000) := by
  with_unfolding_all decide

/-- C7 (amended): whenever the base vector's component sum is non-zero, the six
regime-adjusted weights sum to exactly 1 (hence within any tolerance). -/
theorem c7_weight_sum_amended (w : Weights) (regime : MarketRegime)
    (h : w.wsum ≠ 0) : (adjustWeightsForRegime w regime).wsum = 1 := by
  have hw : w.fundamentals + w.technicals + w.macroW + w.sentiment + w.quality +
      w.valuation ≠ 0 := h
  rcases regime with _ | _ | _ | _ <;>
    (simp only [adjustWeightsForRegime, Weights.wsum]
     rw [if_neg (by intro h0; exact hw (by linarith))]
     rw [div_add_div_same, div_add_div_same, div_add_div_same, div_add_div_same,
       div_add_div_same]
     rw [div_eq_one_iff_eq (by intro h0; exact hw (by linarith))])

/-- C7 witness: the amended sum property at the balanced default weights under
the high-volatility regime. -/
theorem c7_weight_sum_witness :
    (adjustWeightsForRegime cfgB.weights MarketRegime.high_vol).wsum = 1 :=
  c7_weight_sum_amended cfgB.weights MarketRegime.high_vol
    (by with_unfolding_all decide)

/-- C4 counterexample: with 3 closures, no matching trades and an all-zero
weight vector, the update is performed but the returned vector sums to 0, not
1 - the renormalization divides by 1 when the component sum is 0. -/
theorem c4_weight_feedback_counterexample :
    RunCycle.updateWeightsFromClosures (c4Closures.take 3) [] cfg0 =
        some zeroWeights ∧
      zeroWeights.wsum ≠ 1 :=
  ⟨by with_unfolding_all rfl, by with_unfolding_all decide⟩

/-- C4 (amended): below 3 closures the update is a no-op returning null; with
at least 3 closures the result is the per-factor nudged vector (learning rate
0.05 times winner-mean minus loser-mean, skipping factors missing a winner or a
loser sample) renormalized by its component sum, which therefore sums to 1
whenever that pre-normalization sum is non-zero (the code divides by 1 when it
is 0); on the claim's concrete instance (winners 0.8/0.6, losers 0.2/0.4, prior
balanced weights) the technicals weight strictly increases. -/
theorem c4_weight_feedback_amended :
    (∀ closures trades research, closures.length < 3 →
      RunCycle.updateWeightsFromClosures closures trades research = none) ∧
    (∀ closures trades research, 3 ≤ closures.length →
      RunCycle.updateWeightsFromClosures closures trades research =
        some (RunCycle.renormWeights
          (RunCycle.preNormWeights closures trades research.weights))) ∧
    (∀ closures trades research, 3 ≤ closures.length →
      (RunCycle.preNormWeights closures trades research.weights).wsum ≠ 0 →
      ∃ w, RunCycle.updateWeightsFromClosures closures trades research = some w ∧
        w.wsum = 1) ∧
    ((RunCycle.updateWeightsFromClosures c4Closures c4Trades cfgB).map
        Weights.technicals = some (9/34) ∧
      (9/34 : ℚ) > cfgB.weights.technicals) := by
  refine ⟨?_, ?_, ?_, ?_⟩
  · intro closures trades research h
    unfold RunCycle.updateWeightsFromClosures
    rw [if_pos h]
  · intro closures trades research h
    unfold RunCycle.updateWeightsFromClosures
    rw [if_neg (Nat.not_lt.mpr h)]
  · intro closures trades research h hw
    refine ⟨RunCycle.renormWeights
      (RunCycle.preNormWeights closures trades research.weights), ?_, ?_⟩
    · unfold RunCycle.updateWeightsFromClosures
      rw [if_neg (Nat.not_lt.mpr h)]
    · exact renormWeights_wsum _ hw
  · with_unfolding_all decide

/-- C4 witness: the no-op below 3 closures and the summing-to-1 update on the
claim's concrete instance. -/
theorem c4_weight_feedback_witness :
    RunCycle.updateWeightsFromClosures [] [] cfgB = none ∧
      ∃ w, RunCycle.updateWeightsFromClosures c4Closures c4Trades cfgB = some w ∧
        w.wsum = 1 :=
  ⟨c4_weight_feedback_amended.1 [] [] cfgB (by decide),
   c4_weight_feedback_amended.2.2.1 c4Closures c4Trades cfgB
     (by with_unfolding_all decide) (by with_unfolding_all decide)⟩

/-- C5: a paper trade with an available price and non-zero entry price closes
exactly when its elapsed age in days reaches its horizon, with
returnPct = (exitPrice - entryPrice) / entryPrice; evaluatePaperTrades is
exactly that rule mapped over the open trades; concretely, a trade opened at
day 0 with horizon 7 is not closed at day 6, and is closed at day 7 with
return 0.10 for entry 100 and exit 110. -/
theorem c5_paper_trade_theorem :
    (∀ (now : ℚ) snaps (trade : RunCycle.PaperTradeOpen) (p : ℚ),
      RunCycle.priceOf snaps trade.symbol = some p → trade.entryPrice ≠ 0 →
      RunCycle.closeTrade now snaps trade =
        (if (now - trade.entryAt) / 86400000 < trade.horizonDays then none
         else some
           { id := trade.id
             exitAt := now
             exitPrice := p
             returnPct := (p - trade.entryPrice) / trade.entryPrice
             notes := some "weekly evaluation" })) ∧
    (∀ now trades snaps, RunCycle.evaluatePaperTrades now trades snaps =
      trades.filterMap (RunCycle.closeTrade now snaps)) ∧
    (RunCycle.closeTrade (6 * 86400000) c5Snapshots c5Trade = none ∧
     RunCycle.closeTrade (7 * 86400000) c5Snapshots c5Trade =
       some
         { id := 1
           exitAt := 7 * 86400000
           exitPrice := 110
           returnPct := 1/10
           notes := some "weekly evaluation" }) := by
  refine ⟨?_, fun _ _ _ => rfl, ⟨by with_unfolding_all rfl, by with_unfolding_all rfl⟩⟩
  intro now snaps trade p hp hz
  unfold RunCycle.closeTrade
  dsimp only
  rw [hp]
  dsimp only
  by_cases h1 : (now - trade.entryAt) / 86400000 < trade.horizonDays
  · rw [if_pos h1, if_pos h1]
  · rw [if_neg h1, if_neg h1, if_neg hz]

/-- C5 witness: the closure rule applied at the concrete day-7 evaluation. -/
theorem c5_paper_trade_witness :
    RunCycle.closeTrade (7 * 86400000) c5Snapshots c5Trade =
      (if ((7 * 86400000 : ℚ) - c5Trade.entryAt) / 86400000 < c5Trade.horizonDays
       then none
       else some
         { id := c5Trade.id
           exitAt := 7 * 86400000
           exitPrice := 110
           returnPct := (110 - c5Trade.entryPrice) / c5Trade.entryPrice
           notes := some "weekly evaluation" }) :=
  c5_paper_trade_theorem.1 (7 * 86400000) c5Snapshots c5Trade 110
    (by with_unfolding_all rfl) (by with_unfolding_all decide)

/-- The weakest-factor selection: none for an empty snapshot, else an entry of
the snapshot whose value is minimal. -/
theorem weakestFactor_spec (factors : List (String × ℚ)) :
    (factors = [] → RunCycle.weakestFactor factors = none) ∧
    (∀ fv, RunCycle.weakestFactor factors = some fv →
      fv ∈ factors ∧ ∀ gw ∈ factors, fv.2 ≤ gw.2) := by
  constructor
  · intro h
    subst h
    simp [RunCycle.weakestFactor]
  · intro fv hfv
    unfold RunCycle.weakestFactor at hfv
    have hsorted := @List.sorted_mergeSort (String × ℚ)
      (fun a b => decide (a.2 ≤ b.2))
      (by intro a b c hab hbc; simp only [decide_eq_true_eq] at *; linarith)
      (by intro a b; simp only [Bool.or_eq_true, decide_eq_true_eq]; exact le_total _ _)
      factors
    cases hms : factors.mergeSort (fun a b => a.2 ≤ b.2) with
    | nil =>
      rw [hms] at hfv
      simp at hfv
    | cons x rest =>
      rw [hms] at hfv
      simp only [List.head?_cons, Option.some.injEq] at hfv
      subst hfv
      constructor
      · have hx : x ∈ factors.mergeSort (fun a b => a.2 ≤ b.2) := by
          rw [hms]
          exact List.mem_cons_self _ _
        exact List.mem_mergeSort.mp hx
      · intro gw hgw
        have hmem : gw ∈ factors.mergeSort (fun a b => a.2 ≤ b.2) :=
          List.mem_mergeSort.mpr hgw
        rw [hms] at hmem hsorted
        rcases List.mem_cons.mp hmem with h | h
        · subst h
          exact le_refl _
        · have := (List.pairwise_cons.mp hsorted).1 gw h
          simpa using this

/-- C6 counterexample: at a realized return of exactly -5% the claim requires a
ResearchError, but the code records nothing. -/
theorem c6_weak_factor_counterexample :
    RunCycle.logResearchErrorsFromClosures [c6ClosureEdge] [c6Trade] = [] := by
  with_unfolding_all decide

/-- C6 (amended): a ResearchError is recorded for a closed trade if and only if
its realized return is strictly below -5% (returnPct < -0.05); when recorded,
its reason is "paper trade loss" and its rule tag weak_f names a
minimal-scoring entry factor f of the trade's snapshot (no rule tag when the
snapshot is empty). -/
theorem c6_weak_factor_amended :
    (∀ trades (c : RunCycle.PaperTradeClosure) t,
      RunCycle.tradeById trades c.id = some t →
      ((RunCycle.logOne trades c).isSome ↔ c.returnPct < -0.05)) ∧
    (∀ trades c e, RunCycle.logOne trades c = some e →
      e.reason = "paper trade loss" ∧
      ∃ t, RunCycle.tradeById trades c.id = some t ∧ e.symbol = t.symbol ∧
        (t.factors = [] → e.rule = none) ∧
        (t.factors ≠ [] → ∃ fv, fv ∈ t.factors ∧
          (∀ gw ∈ t.factors, fv.2 ≤ gw.2) ∧ e.rule = some ("weak_" ++ fv.1))) ∧
    (∀ closures trades, RunCycle.logResearchErrorsFromClosures closures trades =
      closures.filterMap (RunCycle.logOne trades)) := by
  refine ⟨?_, ?_, ?_⟩
  · intro trades c t ht
    unfold RunCycle.logOne
    split_ifs with h
    · simp only [Option.isSome_none, Bool.false_eq_true, false_iff, not_lt]
      exact h
    · rw [ht]
      simp only [Option.isSome_some, true_iff]
      linarith [lt_of_not_ge h]
  · intro trades c e he
    unfold RunCycle.logOne at he
    split_ifs at he with h
    cases hby : RunCycle.tradeById trades c.id with
    | none =>
      rw [hby] at he
      simp at he
    | some t =>
      rw [hby] at he
      dsimp only at he
      rw [Option.some.injEq] at he
      subst he
      refine ⟨rfl, t, rfl, rfl, ?_, ?_⟩
      · intro hemp
        have := (weakestFactor_spec t.factors).1 hemp
        simp [this]
      · intro hne
        cases hwf : RunCycle.weakestFactor t.factors with
        | none =>
          exfalso
          apply hne
          unfold RunCycle.weakestFactor at hwf
          rw [List.head?_eq_none_iff] at hwf
          have hperm := List.mergeSort_perm t.factors (fun a b => a.2 ≤ b.2)
          rw [hwf] at hperm
          exact List.Perm.eq_nil hperm.symm
        | some fv =>
          have hspec := (weakestFactor_spec t.factors).2 fv hwf
          exact ⟨fv, hspec.1, hspec.2, by simp [hwf]⟩
  · intro closures trades
    unfold RunCycle.logResearchErrorsFromClosures
    split
    · rename_i h
      rw [List.length_eq_zero] at h
      subst h
      rfl
    · rfl

/-- C6 witness: the recording criterion applied at a concrete -10% closure. -/
theorem c6_weak_factor_witness :
    (RunCycle.logOne [c6Trade] c6ClosureLoss).isSome ↔
      c6ClosureLoss.returnPct < -0.05 :=
  c6_weak_factor_amended.1 [c6Trade] c6ClosureLoss c6Trade
    (by with_unfolding_all decide)

theorem evalSymbol_dq (ctx : CycleCtx) (s : String) :
    (evalSymbol ctx s).dq = symbolDataQuality ctx s := by
  unfold evalSymbol
  split <;> rfl

theorem candOf_eq (ctx : CycleCtx) (s : String) :
    candOf ctx s = if (exclusionReasonsOf ctx s).length > 0 then none
      else some (mkCandidate ctx s) := by
  unfold candOf evalSymbol
  by_cases h : (exclusionReasonsOf ctx s).length > 0 <;> simp [h]

theorem exclOf_eq (ctx : CycleCtx) (s : String) :
    exclOf ctx s = if (exclusionReasonsOf ctx s).length > 0
      then some
        { symbol := s
          reasons := exclusionReasonsOf ctx s
          sector := sectorOf ctx s
          industry := industryOf ctx s }
      else none := by
  unfold exclOf evalSymbol
  by_cases h : (exclusionReasonsOf ctx s).length > 0 <;> simp [h]

theorem stepAcc_candidates (ctx : CycleCtx) (acc : BuildAcc) (s : String) :
    (stepAcc ctx acc s).candidates = acc.candidates ++ (candOf ctx s).toList := by
  unfold stepAcc candOf
  cases h : (evalSymbol ctx s).result <;> simp [h, Option.toList]

theorem stepAcc_excluded (ctx : CycleCtx) (acc : BuildAcc) (s : String) :
    (stepAcc ctx acc s).excluded = acc.excluded ++ (exclOf ctx s).toList := by
  unfold stepAcc exclOf
  cases h : (evalSymbol ctx s).result <;> simp [h, Option.toList]

theorem stepAcc_dqSum (ctx : CycleCtx) (acc : BuildAcc) (s : String) :
    (stepAcc ctx acc s).dqSum = acc.dqSum + symbolDataQuality ctx s := by
  unfold stepAcc
  cases h : (evalSymbol ctx s).result <;> simp [h, evalSymbol_dq]

theorem foldl_candidates (ctx : CycleCtx) (syms : List String) : ∀ acc : BuildAcc,
    (syms.foldl (stepAcc ctx) acc).candidates =
      acc.candidates ++ syms.filterMap (candOf ctx) := by
  induction syms with
  | nil =>
    intro acc
    simp
  | cons s rest ih =>
    intro acc
    rw [List.foldl_cons, ih, stepAcc_candidates, List.filterMap_cons]
    cases candOf ctx s <;> simp [Option.toList]

theorem foldl_excluded (ctx : CycleCtx) (syms : List String) : ∀ acc : BuildAcc,
    (syms.foldl (stepAcc ctx) acc).excluded =
      acc.excluded ++ syms.filterMap (exclOf ctx) := by
  induction syms with
  | nil =>
    intro acc
    simp
  | cons s rest ih =>
    intro acc
    rw [List.foldl_cons, ih, stepAcc_excluded, List.filterMap_cons]
    cases exclOf ctx s <;> simp [Option.toList]

theorem foldl_dqSum (ctx : CycleCtx) (syms : List String) : ∀ acc : BuildAcc,
    (syms.foldl (stepAcc ctx) acc).dqSum =
      acc.dqSum + (syms.map (symbolDataQuality ctx)).sum := by
  induction syms with
  | nil =>
    intro acc
    simp
  | cons s rest ih =>
    intro acc
    rw [List.foldl_cons, ih, stepAcc_dqSum]
    simp [add_assoc]

theorem build_candidates (now : ℚ) (powHalf : ℚ → ℚ) (params : BuildParams) :
    (buildResearchAnalysis now powHalf params).candidates =
      (params.symbols.filterMap (candOf (mkCycleCtx now powHalf params))).mergeSort
        (fun a b => b.score ≤ a.score) := by
  unfold buildResearchAnalysis
  dsimp only
  rw [foldl_candidates]
  rfl

theorem build_excluded (now : ℚ) (powHalf : ℚ → ℚ) (params : BuildParams) :
    (buildResearchAnalysis now powHalf params).excluded =
      params.symbols.filterMap (exclOf (mkCycleCtx now powHalf params)) := by
  unfold buildResearchAnalysis
  dsimp only
  rw [foldl_excluded]
  rfl

theorem build_dataQuality (now : ℚ) (powHalf : ℚ → ℚ) (params : BuildParams) :
    (buildResearchAnalysis now powHalf params).dataQuality =
      (if 0 < (params.symbols.filterMap (candOf (mkCycleCtx now powHalf params))).length
       then (params.symbols.map (symbolDataQuality (mkCycleCtx now powHalf params))).sum /
         ((params.symbols.filterMap (candOf (mkCycleCtx now powHalf params))).length : ℚ)
       else 1/2) := by
  unfold buildResearchAnalysis
  dsimp only
  rw [foldl_candidates, foldl_dqSum]
  simp

theorem mem_build_candidates (now : ℚ) (powHalf : ℚ → ℚ) (params : BuildParams)
    (c : ResearchCandidate) :
    c ∈ (buildResearchAnalysis now powHalf params).candidates ↔
      ∃ s ∈ params.symbols, candOf (mkCycleCtx now powHalf params) s = some c := by
  rw [build_candidates, List.mem_mergeSort, List.mem_filterMap]

/-- C1 counterexample: on c1Params the emitted candidate has confidence 1, but
clamp(0.7 x (clamped) score + 0.3 x dataQuality, 0, 1) is 0.76 - the code
blends the unclamped weighted sum into confidence, not the clamped composite
score. -/
theorem c1_confidence_counterexample :
    (buildResearchAnalysis 0 powHalf0 c1Params).candidates.map
        (fun c => (c.confidence, clamp (0.7 * c.score + 0.3 * c.dataQuality) 0 1)) =
      [(1, 19/25)] ∧ (1 : ℚ) ≠ 19/25 :=
  ⟨by with_unfolding_all rfl, by norm_num⟩

/-- C1 (amended): every emitted candidate's confidence lies in [0, 1] and
equals clamp(0.7 x w + 0.3 x dataQuality, 0, 1) where w is the raw
(unclamped) weighted factor sum, the candidate's score being clamp(w, 0, 1). -/
theorem c1_confidence_amended (now : ℚ) (powHalf : ℚ → ℚ) (params : BuildParams)
    (c : ResearchCandidate)
    (hc : c ∈ (buildResearchAnalysis now powHalf params).candidates) :
    0 ≤ c.confidence ∧ c.confidence ≤ 1 ∧
    c.score = clamp (rawWeightedScore (mkCycleCtx now powHalf params) c.symbol) 0 1 ∧
    c.confidence = clamp (rawWeightedScore (mkCycleCtx now powHalf params) c.symbol * 0.7 +
      c.dataQuality * 0.3) 0 1 := by
  rw [mem_build_candidates] at hc
  obtain ⟨s, hs, hcand⟩ := hc
  rw [candOf_eq] at hcand
  split at hcand
  · simp at hcand
  · rw [Option.some.injEq] at hcand
    subst hcand
    exact ⟨(clamp_unit _).1, (clamp_unit _).2, rfl, rfl⟩

/-- C1 witness: the amended confidence formula at the concrete c1Params run. -/
theorem c1_confidence_witness :
    0 ≤ c1Candidate.confidence ∧ c1Candidate.confidence ≤ 1 ∧
    c1Candidate.score =
      clamp (rawWeightedScore (mkCycleCtx 0 powHalf0 c1Params) c1Candidate.symbol) 0 1 ∧
    c1Candidate.confidence =
      clamp (rawWeightedScore (mkCycleCtx 0 powHalf0 c1Params) c1Candidate.symbol * 0.7 +
        c1Candidate.dataQuality * 0.3) 0 1 :=
  c1_confidence_amended 0 powHalf0 c1Params c1Candidate (by
    have h : (buildResearchAnalysis 0 powHalf0 c1Params).candidates = [c1Candidate] := by
      with_unfolding_all rfl
    rw [h]
    exact List.mem_singleton_self _)

theorem mem_cand_symbols (now : ℚ) (powHalf : ℚ → ℚ) (params : BuildParams) (s : String) :
    s ∈ ((buildResearchAnalysis now powHalf params).candidates.map
        ResearchCandidate.symbol) ↔
      s ∈ params.symbols ∧
        (exclusionReasonsOf (mkCycleCtx now powHalf params) s).length = 0 := by
  rw [List.mem_map]
  constructor
  · rintro ⟨c, hc, rfl⟩
    rw [mem_build_candidates] at hc
    obtain ⟨s', hs', hcand⟩ := hc
    rw [candOf_eq] at hcand
    split at hcand
    · simp at hcand
    · rename_i hnotpos
      rw [Option.some.injEq] at hcand
      subst hcand
      exact ⟨hs', Nat.eq_zero_of_not_pos hnotpos⟩
  · rintro ⟨hs, hlen⟩
    refine ⟨mkCandidate (mkCycleCtx now powHalf params) s, ?_, rfl⟩
    rw [mem_build_candidates]
    exact ⟨s, hs, by rw [candOf_eq, if_neg (by omega)]⟩

theorem mem_excl_symbols (now : ℚ) (powHalf : ℚ → ℚ) (params : BuildParams) (s : String) :
    s ∈ ((buildResearchAnalysis now powHalf params).excluded.map
        ResearchExclusion.symbol) ↔
      s ∈ params.symbols ∧
        0 < (exclusionReasonsOf (mkCycleCtx now powHalf params) s).length := by
  rw [build_excluded, List.mem_map]
  constructor
  · rintro ⟨e, he, rfl⟩
    rw [List.mem_filterMap] at he
    obtain ⟨s', hs', hexc⟩ := he
    rw [exclOf_eq] at hexc
    split at hexc
    · rename_i hpos
      rw [Option.some.injEq] at hexc
      subst hexc
      exact ⟨hs', hpos⟩
    · simp at hexc
  · rintro ⟨hs, hpos⟩
    refine ⟨⟨s, exclusionReasonsOf (mkCycleCtx now powHalf params) s,
      sectorOf (mkCycleCtx now powHalf params) s,
      industryOf (mkCycleCtx now powHalf params) s⟩, ?_, rfl⟩
    rw [List.mem_filterMap]
    exact ⟨s, hs, by rw [exclOf_eq, if_pos hpos]⟩

/-- C8: for every input, the candidate symbols and excluded symbols are
disjoint, and together they are exactly the evaluated symbol universe (stated
for arbitrary symbol lists, so in particular for distinct ones). -/
theorem c8_partition_theorem (now : ℚ) (powHalf : ℚ → ℚ) (params : BuildParams) :
    (∀ s, ¬(s ∈ ((buildResearchAnalysis now powHalf params).candidates.map
          ResearchCandidate.symbol) ∧
        s ∈ ((buildResearchAnalysis now powHalf params).excluded.map
          ResearchExclusion.symbol))) ∧
    (∀ s, (s ∈ ((buildResearchAnalysis now powHalf params).candidates.map
          ResearchCandidate.symbol) ∨
        s ∈ ((buildResearchAnalysis now powHalf params).excluded.map
          ResearchExclusion.symbol)) ↔
        s ∈ params.symbols) := by
  constructor
  · rintro s ⟨h1, h2⟩
    rw [mem_cand_symbols] at h1
    rw [mem_excl_symbols] at h2
    omega
  · intro s
    rw [mem_cand_symbols, mem_excl_symbols]
    constructor
    · rintro (⟨hs, _⟩ | ⟨hs, _⟩) <;> exact hs
    · intro hs
      by_cases h : (exclusionReasonsOf (mkCycleCtx now powHalf params) s).length = 0
      · exact Or.inl ⟨hs, h⟩
      · exact Or.inr ⟨hs, by omega⟩

/-- C10: the aggregate dataQuality averages the per-symbol data quality of ALL
evaluated symbols (excluded ones included) over the number of surviving
candidates only (0.5 with no candidates); consequently on c10Params (one
fully-documented excluded symbol, one data-poor candidate) it is 1.2 > 1. -/
theorem c10_data_quality_theorem :
    (∀ (now : ℚ) (powHalf : ℚ → ℚ) (params : BuildParams),
      (buildResearchAnalysis now powHalf params).dataQuality =
        (if 0 < (buildResearchAnalysis now powHalf params).candidates.length
         then (params.symbols.map (symbolDataQuality (mkCycleCtx now powHalf params))).sum /
           ((buildResearchAnalysis now powHalf params).candidates.length : ℚ)
         else 1/2)) ∧
    ((buildResearchAnalysis 0 powHalf0 c10Params).dataQuality = 6/5 ∧
      (1 : ℚ) < (buildResearchAnalysis 0 powHalf0 c10Params).dataQuality) := by
  refine ⟨?_, by with_unfolding_all rfl, by with_unfolding_all decide⟩
  intro now powHalf params
  rw [build_candidates, List.length_mergeSort, build_dataQuality]

theorem mem_of_ite_singleton {c : Prop} [Decidable c] {x lit : String}
    (h : x ∈ if c then [lit] else []) : c ∧ x = lit := by
  split at h
  · rename_i hc
    simp only [List.mem_singleton] at h
    exact ⟨hc, h⟩
  · simp at h

theorem red_flag_strings (cns : ResearchConfig) (f : Option Fundamentals)
    (t : Option Technicals) (l : Option LiquidityMetrics) (r : Option RiskFlags) :
    ∀ x ∈ buildRedFlags cns f t l r,
      x ∈ ["market cap below minimum", "dollar volume below minimum",
        "drawdown exceeds max", "legal issues", "accounting anomaly",
        "regulatory overhang", "high short interest"] := by
  intro x hx
  unfold buildRedFlags at hx
  simp only [List.mem_append] at hx
  rcases hx with ((((((h | h) | h) | h) | h) | h) | h)
  · split at h
    · have := (mem_of_ite_singleton h).2
      subst this
      simp
    · simp at h
  · split at h
    · have := (mem_of_ite_singleton h).2
      subst this
      simp
    · simp at h
  · split at h
    · have := (mem_of_ite_singleton h).2
      subst this
      simp
    · simp at h
  · have := (mem_of_ite_singleton h).2
    subst this
    simp
  · have := (mem_of_ite_singleton h).2
    subst this
    simp
  · have := (mem_of_ite_singleton h).2
    subst this
    simp
  · have := (mem_of_ite_singleton h).2
    subst this
    simp

theorem red_flag_map_ne (ctx : CycleCtx) (s : String) :
    ∀ x ∈ (redFlagsOf ctx s).map (fun r => "red flag: " ++ r),
      x ≠ "sector cap exceeded" ∧ x ≠ "industry cap exceeded" := by
  intro x hx
  rw [List.mem_map] at hx
  obtain ⟨rr, hrr, rfl⟩ := hx
  have h7 := red_flag_strings ctx.research (fOf ctx s) (tOf ctx s)
    (liquidityOf ctx s) (riskOf ctx s) rr hrr
  simp only [List.mem_cons, List.not_mem_nil, or_false] at h7
  rcases h7 with rfl | rfl | rfl | rfl | rfl | rfl | rfl <;>
    exact ⟨by decide, by decide⟩

theorem sector_reason_iff (ctx : CycleCtx) (s : String) :
    "sector cap exceeded" ∈ exclusionReasonsOf ctx s ↔
      sectorWeightOf ctx s > ctx.research.sectorCap := by
  unfold exclusionReasonsOf
  simp only [List.mem_append]
  constructor
  · rintro ((((((h | h) | h) | h) | h) | h) | h)
    · exact absurd (mem_of_ite_singleton h).2 (by decide)
    · exact absurd (mem_of_ite_singleton h).2 (by decide)
    · exact absurd (mem_of_ite_singleton h).2 (by decide)
    · exact absurd rfl ((red_flag_map_ne ctx s _ h).1)
    · split at h
      · exact absurd (mem_of_ite_singleton h).2 (by decide)
      · simp at h
    · exact (mem_of_ite_singleton h).1
    · exact absurd (mem_of_ite_singleton h).2 (by decide)
  · intro hgt
    exact Or.inl (Or.inr (by rw [if_pos hgt]; exact List.mem_singleton_self _))

theorem industry_reason_iff (ctx : CycleCtx) (s : String) :
    "industry cap exceeded" ∈ exclusionReasonsOf ctx s ↔
      industryWeightOf ctx s > ctx.research.industryCap := by
  unfold exclusionReasonsOf
  simp only [List.mem_append]
  constructor
  · rintro ((((((h | h) | h) | h) | h) | h) | h)
    · exact absurd (mem_of_ite_singleton h).2 (by decide)
    · exact absurd (mem_of_ite_singleton h).2 (by decide)
    · exact absurd (mem_of_ite_singleton h).2 (by decide)
    · exact absurd rfl ((red_flag_map_ne ctx s _ h).2)
    · split at h
      · exact absurd (mem_of_ite_singleton h).2 (by decide)
      · simp at h
    · exact absurd (mem_of_ite_singleton h).2 (by decide)
    · exact (mem_of_ite_singleton h).1
  · intro hgt
    exact Or.inr (by rw [if_pos hgt]; exact List.mem_singleton_self _)

/-- C2 counterexample: with positions A = 400 and B = 600 (sector weights 0.4
and 0.6) and cap 0.5, a new candidate in A's sector whose hypothetical
notional is 300 has a post-inclusion weight 700/1300 above the cap, yet the
code does NOT exclude it - the concentration check uses only the current,
pre-inclusion portfolio weights. -/
theorem c2_sector_cap_counterexample :
    (buildResearchAnalysis 0 powHalf0 c2xParams).candidates.map
        ResearchCandidate.symbol = ["NEW"] ∧
    (buildResearchAnalysis 0 powHalf0 c2xParams).excluded = [] ∧
    specPostInclusionWeight 400 1000 300 > c2Research.sectorCap :=
  ⟨by with_unfolding_all rfl, by with_unfolding_all rfl, by with_unfolding_all decide⟩

/-- C2 (amended): the sector (industry) concentration used for the cap check
is the CURRENT portfolio market value in that sector (industry) as a fraction
of total position value, with no hypothetical inclusion of the candidate's
notional; the reason "sector cap exceeded" (resp. industry) is recorded iff
that current weight strictly exceeds the cap, where the totals come from
sectorIndustryWeights over the current positions; the claim's concrete
examples hold: with positions {A: 700, B: 300} and cap 0.5 a candidate in A's
sector is excluded (sole reason the sector cap) and a fresh-sector candidate
is ranked. -/
theorem c2_sector_cap_amended :
    (∀ (now : ℚ) (powHalf : ℚ → ℚ) (params : BuildParams) (s : String),
      ("sector cap exceeded" ∈ exclusionReasonsOf (mkCycleCtx now powHalf params) s ↔
        sectorWeightOf (mkCycleCtx now powHalf params) s > params.research.sectorCap)) ∧
    (∀ (now : ℚ) (powHalf : ℚ → ℚ) (params : BuildParams) (s : String),
      ("industry cap exceeded" ∈ exclusionReasonsOf (mkCycleCtx now powHalf params) s ↔
        industryWeightOf (mkCycleCtx now powHalf params) s >
          params.research.industryCap)) ∧
    (∀ (now : ℚ) (powHalf : ℚ → ℚ) (params : BuildParams),
      (mkCycleCtx now powHalf params).sectorTotals =
        (sectorIndustryWeights params.positions params.researchData.fundamentals).1 ∧
      (mkCycleCtx now powHalf params).industryTotals =
        (sectorIndustryWeights params.positions params.researchData.fundamentals).2.1 ∧
      (mkCycleCtx now powHalf params).total =
        (sectorIndustryWeights params.positions params.researchData.fundamentals).2.2) ∧
    ((buildResearchAnalysis 0 powHalf0 c2Params).excluded.map
        (fun e => (e.symbol, e.reasons)) = [("C", ["sector cap exceeded"])] ∧
      (buildResearchAnalysis 0 powHalf0 c2Params).candidates.map
        ResearchCandidate.symbol = ["D"]) :=
  ⟨fun now powHalf params s => sector_reason_iff (mkCycleCtx now powHalf params) s,
   fun now powHalf params s => industry_reason_iff (mkCycleCtx now powHalf params) s,
   fun _ _ _ => ⟨rfl, rfl, rfl⟩,
   by with_unfolding_all rfl, by with_unfolding_all rfl⟩

theorem computeSentimentScore_clock_free (t1 t2 : ℚ) (p1 p2 : ℚ → ℚ)
    (news : Option (List NewsItem)) (earnings : Option (List EarningsCallSummary))
    (insider : Option InsiderActivity) (institutional : Option InstitutionalFlow)
    (hl : ℚ) (hn : news.getD [] = []) (he : earnings.getD [] = []) :
    computeSentimentScore t1 p1 news earnings insider institutional hl =
      computeSentimentScore t2 p2 news earnings insider institutional hl := by
  unfold computeSentimentScore
  rw [hn, he]
  simp only [List.map_nil]

theorem evalSymbol_clock_free (ctx1 ctx2 : CycleCtx) (s : String)
    (hsn : ctx1.snapshots = ctx2.snapshots)
    (hrd : ctx1.researchData = ctx2.researchData)
    (hrc : ctx1.research = ctx2.research)
    (hrg : ctx1.regime = ctx2.regime)
    (hpm : ctx1.peerMedians = ctx2.peerMedians)
    (hst : ctx1.sectorTotals = ctx2.sectorTotals)
    (hit : ctx1.industryTotals = ctx2.industryTotals)
    (htot : ctx1.total = ctx2.total)
    (hw : ctx1.weights = ctx2.weights)
    (hn : (ctx1.researchData.news.lookup s).getD [] = [])
    (he : (ctx1.researchData.earnings.lookup s).getD [] = []) :
    evalSymbol ctx1 s = evalSymbol ctx2 s := by
  obtain ⟨t1, p1, sn1, rd1, rc1, rg1, pm1, st1, it1, tot1, w1⟩ := ctx1
  obtain ⟨t2, p2, sn2, rd2, rc2, rg2, pm2, st2, it2, tot2, w2⟩ := ctx2
  dsimp only at hsn hrd hrc hrg hpm hst hit htot hw hn he
  subst hsn hrd hrc hrg hpm hst hit htot hw
  have hs : computeSentimentScore t1 p1 (rd1.news.lookup s) (rd1.earnings.lookup s)
      (rd1.insider.lookup s) (rd1.institutional.lookup s) rc1.recencyHalfLifeDays =
    computeSentimentScore t2 p2 (rd1.news.lookup s) (rd1.earnings.lookup s)
      (rd1.insider.lookup s) (rd1.institutional.lookup s) rc1.recencyHalfLifeDays :=
    computeSentimentScore_clock_free t1 t2 p1 p2 _ _ _ _ _ hn he
  have hfs : factorScoresOf ⟨t1, p1, sn1, rd1, rc1, rg1, pm1, st1, it1, tot1, w1⟩ s =
      factorScoresOf ⟨t2, p2, sn1, rd1, rc1, rg1, pm1, st1, it1, tot1, w1⟩ s := by
    unfold factorScoresOf
    dsimp only [newsOf, earningsOf, insiderOf, institutionalOf, fOf, tOf, snapshotOf]
    rw [hs]
  have hraw : rawWeightedScore ⟨t1, p1, sn1, rd1, rc1, rg1, pm1, st1, it1, tot1, w1⟩ s =
      rawWeightedScore ⟨t2, p2, sn1, rd1, rc1, rg1, pm1, st1, it1, tot1, w1⟩ s := by
    unfold rawWeightedScore
    dsimp only
    rw [hfs]
  have hcand : mkCandidate ⟨t1, p1, sn1, rd1, rc1, rg1, pm1, st1, it1, tot1, w1⟩ s =
      mkCandidate ⟨t2, p2, sn1, rd1, rc1, rg1, pm1, st1, it1, tot1, w1⟩ s := by
    unfold mkCandidate
    rw [hraw, hfs]
    rfl
  unfold evalSymbol
  rw [hcand]
  rfl

/-- C9 counterexample: on the frozen input c9Params (two dated news items)
the analyses computed at day 5 and at day 20 differ - the ranker reads the
wall clock through the news recency decay. -/
theorem c9_determinism_counterexample :
    buildResearchAnalysis 432000000 cPow c9Params ≠
      buildResearchAnalysis 1728000000 cPow c9Params := by
  intro h
  have e1 : (buildResearchAnalysis 432000000 cPow c9Params).candidates.map
      ResearchCandidate.score = [269/660] := by
    with_unfolding_all rfl
  have e2 : (buildResearchAnalysis 1728000000 cPow c9Params).candidates.map
      ResearchCandidate.score = [1641/4100] := by
    with_unfolding_all rfl
  rw [h, e2] at e1
  simp only [List.cons.injEq, and_true] at e1
  norm_num at e1

/-- C9 (amended): the ranker is a deterministic function of its declared
inputs TOGETHER WITH the wall-clock time and power function it consumes via
recency decay; when the frozen input carries no news and no earnings items,
the output is independent of the clock, so two runs at any two times are
byte-identical. -/
theorem c9_determinism_amended (t1 t2 : ℚ) (p1 p2 : ℚ → ℚ) (params : BuildParams)
    (hn : ∀ s, (params.researchData.news.lookup s).getD [] = [])
    (he : ∀ s, (params.researchData.earnings.lookup s).getD [] = []) :
    buildResearchAnalysis t1 p1 params = buildResearchAnalysis t2 p2 params := by
  have hstep : stepAcc (mkCycleCtx t1 p1 params) = stepAcc (mkCycleCtx t2 p2 params) := by
    funext acc s
    unfold stepAcc
    rw [show evalSymbol (mkCycleCtx t1 p1 params) s =
        evalSymbol (mkCycleCtx t2 p2 params) s from
      evalSymbol_clock_free _ _ s rfl rfl rfl rfl rfl rfl rfl rfl rfl (hn s) (he s)]
  unfold buildResearchAnalysis
  dsimp only
  rw [hstep]
  rfl

/-- C9 witness: two runs at different times agree on an input with no news or
earnings entries. -/
theorem c9_determinism_witness :
    buildResearchAnalysis 0 powHalf0 c9EmptyParams =
      buildResearchAnalysis 864000000 cPow c9EmptyParams :=
  c9_determinism_amended 0 864000000 powHalf0 cPow c9EmptyParams
    (fun s => by simp [c9EmptyParams]) (fun s => by simp [c9EmptyParams])

end StockTrader
